import Mathlib

/-!
# Tutorial05_RenderTarget (LLGL): the frame callback and the constructor

A shallow embedding of `tutorial/Tutorial05_RenderTarget/main.cpp`.

* Pointers to library objects are `Handle`s (`none` is `nullptr`); applying `*` or `->`
  to a null handle is the error `Err.nullDereference`.
* The member functions are state-passing programs in `Exec`: the state holds the members
  of the `Tutorial05` object (with the two function-local statics `rot0`, `rot1`), and a
  run gives the log of every call that left the class, in program order. Each log entry
  also records the value the `settings` member had when the call was made.
* `float` arithmetic is modelled exactly, over `ℚ`.
* The GaussianLib matrix functions (`Gs::Translate`, `Gs::RotateFree`, `Gs::FlipAxis`, ...)
  are not part of this file of the repository; they are taken as the parameter `GsLib`.
  The members and helpers of the base class `Tutorial` (`../tutorial.h`) are taken as the
  parameters `Tutorial` and `RenderSystem`.
-/

namespace Tutorial05

/-! ## Data model -/

/-- The two preprocessor switches at the top of `main.cpp`. -/
structure BuildConfig where
  ENABLE_MULTISAMPLING : Bool
  ENABLE_CUSTOM_MULTISAMPLING : Bool
deriving DecidableEq

/-- The build as checked in: `ENABLE_MULTISAMPLING` defined, `ENABLE_CUSTOM_MULTISAMPLING`
commented out. -/
def defaultBuild : BuildConfig := ⟨true, false⟩

/-- The test `#ifdef ENABLE_CUSTOM_MULTISAMPLING` after lines 18-20
(`#ifndef ENABLE_MULTISAMPLING` / `#undef ENABLE_CUSTOM_MULTISAMPLING`). -/
def BuildConfig.customMultisampling (cfg : BuildConfig) : Bool :=
  cfg.ENABLE_MULTISAMPLING && cfg.ENABLE_CUSTOM_MULTISAMPLING

/-- A pointer to a library object; `none` is `nullptr`. -/
abbrev Handle := Option Nat

structure Vector2 (α : Type) where
  x : α
  y : α
deriving DecidableEq

structure Vector3 (α : Type) where
  x : α
  y : α
  z : α
deriving DecidableEq

/-- The one-argument constructor `Gs::Vector2T(scalar)`: every component is the scalar. -/
def Vector2.ofScalar {α : Type} (s : α) : Vector2 α := ⟨s, s⟩

/-- The one-argument constructor `Gs::Vector3T(scalar)`: every component is the scalar. -/
def Vector3.ofScalar {α : Type} (s : α) : Vector3 α := ⟨s, s, s⟩

/-- Component-wise `operator-` of `Gs::Vector2f`. -/
def Vector2.sub (a b : Vector2 ℚ) : Vector2 ℚ := ⟨a.x - b.x, a.y - b.y⟩

/-- Component-wise `operator+` of `Gs::Vector2f`. -/
def Vector2.add (a b : Vector2 ℚ) : Vector2 ℚ := ⟨a.x + b.x, a.y + b.y⟩

/-- The `operator*` of `Gs::Vector2f` with a scalar on the right. -/
def Vector2.mulScalar (a : Vector2 ℚ) (s : ℚ) : Vector2 ℚ := ⟨a.x * s, a.y * s⟩

/-- The GaussianLib functions used by the tutorial, over a matrix type `Mat`, the type
`Dir` of normalized axes and the type `Rad` of `Gs::Deg2Rad` results. -/
structure GsLib (Mat Dir Rad : Type) where
  /-- A default-constructed `Gs::Matrix4f`. -/
  Matrix4f : Mat
  Translate : Mat → Vector3 ℚ → Mat
  RotateFree : Mat → Dir → ℚ → Mat
  FlipAxis : Mat → Nat → Mat
  Normalized : Vector3 ℚ → Dir
  Deg2Rad : ℚ → Rad
  /-- The value of `Gs::ProjectionMatrix4f::Perspective(aspect, near, far, fov).ToMatrix4()`. -/
  Perspective : ℚ → ℚ → ℚ → Rad → Mat

/-- The member `settings` (`struct Settings`); the padding `_pad0` holds no data. -/
structure Settings (Mat : Type) where
  wvpMatrix : Mat
  useTexture2DMS : Int
deriving DecidableEq

structure VertexPosTexCoord where
  position : Vector3 ℚ
  texCoord : Vector2 ℚ
deriving DecidableEq

inductive DataType where
  | Float
  | UInt32
deriving DecidableEq

structure VertexAttribute where
  name : String
  dataType : DataType
  components : Nat
deriving DecidableEq

/-- The attributes of an `LLGL::VertexFormat`, in the order they were appended. -/
abbrev VertexFormat := List VertexAttribute

inductive ShaderStage where
  | VertexStage
  | FragmentStage
deriving DecidableEq

/-- A combination of `LLGL::ShaderStageFlags` joined by `|`. -/
abbrev ShaderStageFlags := List ShaderStage

inductive ClearBuffer where
  | Color
  | Depth
deriving DecidableEq

/-- A combination of `LLGL::ClearBuffersFlags` joined by `|`. -/
abbrev ClearBuffersFlags := List ClearBuffer

inductive CullMode where
  | Disabled
  | Front
  | Back
deriving DecidableEq

/-- The fields of `LLGL::GraphicsPipelineDescriptor` that `CreatePipelines` writes; a field
it leaves alone keeps the value given by `GraphicsPipelineDescriptor.default`. -/
structure GraphicsPipelineDescriptor where
  shaderProgram : Handle
  depthTestEnabled : Bool
  depthWriteEnabled : Bool
  cullMode : CullMode
  samplingEnabled : Bool
deriving DecidableEq

def GraphicsPipelineDescriptor.default : GraphicsPipelineDescriptor :=
  ⟨none, false, false, CullMode.Disabled, false⟩

inductive TextureWrap where
  | Repeat
  | Border
deriving DecidableEq

/-- The colour components passed in a braced list, as written in the source. -/
abbrev Color := List ℚ

/-- The fields of `LLGL::SamplerDescriptor` that `CreateColorMap` writes. -/
structure SamplerDescriptor where
  textureWrapU : TextureWrap
  textureWrapV : TextureWrap
  maxAnisotropy : Nat
  borderColor : Color
deriving DecidableEq

inductive TextureFormat where
  | RGBA
deriving DecidableEq

/-- The result of `LLGL::Texture2DDesc(format, width, height)` or of
`LLGL::Texture2DMSDesc(format, width, height, samples)`. -/
inductive TextureDescriptor where
  | Texture2DDesc (format : TextureFormat) (width height : Nat)
  | Texture2DMSDesc (format : TextureFormat) (width height samples : Nat)
deriving DecidableEq

/-- The part `stateOpenGL.invertFrontFace` of `LLGL::GraphicsAPIDependentStateDescriptor`;
a default-constructed descriptor (`{}`) has it `false`. -/
structure GraphicsAPIDependentStateDescriptor where
  invertFrontFace : Bool
deriving DecidableEq

def GraphicsAPIDependentStateDescriptor.default : GraphicsAPIDependentStateDescriptor :=
  ⟨false⟩

/-- The four leading fields `{ x, y, width, height }` of `LLGL::Viewport`. -/
structure Viewport where
  x : ℚ
  y : ℚ
  width : ℚ
  height : ℚ
deriving DecidableEq

inductive Key where
  | LButton
  | RButton
  | Return
deriving DecidableEq

/-- The state of the input layer during one frame. -/
structure Input where
  KeyPressed : Key → Bool
  KeyDown : Key → Bool
  GetMouseMotion : Vector2 Int

/-- A call that leaves the class: to the render context, the render system, the input
layer, a helper of the base class `Tutorial`, or `std::cout`. Objects passed by reference
appear as the address held by the handle. -/
inductive Call (Mat : Type) where
  | KeyPressed (key : Key)
  | KeyDown (key : Key)
  | GetMouseMotion
  | SetIndexBuffer (buffer : Nat)
  | SetVertexBuffer (buffer : Nat)
  | SetConstantBuffer (buffer : Nat) (slot : Nat) (stages : ShaderStageFlags)
  | SetSampler (sampler : Nat) (slot : Nat) (stages : ShaderStageFlags)
  | SetGraphicsPipeline (pipeline : Nat)
  | SetGraphicsAPIDependentState (state : GraphicsAPIDependentStateDescriptor)
  | SetRenderTarget (renderTarget : Nat)
  | UnsetRenderTarget
  | SetViewport (viewport : Viewport)
  | SetClearColor (color : Color)
  | ClearBuffers (flags : ClearBuffersFlags)
  | SetTexture (texture : Nat) (slot : Nat) (stages : ShaderStageFlags)
  | UpdateBuffer (buffer : Nat) (data : Settings Mat)
  | DrawIndexed (numVertices : Nat) (firstIndex : Nat)
  | GenerateMips (texture : Nat)
  | GetVideoMode
  | Present
  | SaveTexture (texture : Nat) (filename : String)
  | GenerateTexturedCubeVertices
  | GenerateTexturedCubeTriangleIndices
  | CreateVertexBuffer (vertices : List VertexPosTexCoord) (format : VertexFormat)
  | CreateIndexBuffer (indices : List Nat) (dataType : DataType)
  | CreateConstantBuffer (data : Settings Mat)
  | LoadStandardShaderProgram (format : VertexFormat)
  | CreateGraphicsPipeline (desc : GraphicsPipelineDescriptor)
  | LoadTexture (filename : String)
  | CreateSampler (desc : SamplerDescriptor)
  | CreateRenderTarget (multiSamples : Nat)
  | CreateTexture (desc : TextureDescriptor)
  | AttachDepthBuffer (renderTarget : Nat) (size : Vector2 Nat)
  | AttachTexture (renderTarget : Nat) (texture : Nat)
  | Print (line : String)
deriving DecidableEq

/-- One entry of the call log: the call, and the value of the member `settings` at the
moment of the call. -/
structure Entry (Mat : Type) where
  call : Call Mat
  settings : Settings Mat

/-- The members of the base class `Tutorial` that `Tutorial05` reads. -/
structure Tutorial (Mat : Type) where
  projection : Mat
  defaultClearColor : Color
  IsOpenGL : Bool
  /-- The value of `context->GetVideoMode().resolution`. -/
  resolution : Vector2 Nat
  GenerateTexturedCubeVertices : List VertexPosTexCoord
  GenerateTexturedCubeTriangleIndices : List Nat

/-- The pointer each creation call of the library returns. -/
structure RenderSystem where
  CreateVertexBuffer : Handle
  CreateIndexBuffer : Handle
  CreateConstantBuffer : Handle
  LoadStandardShaderProgram : Handle
  CreateGraphicsPipeline : Handle
  LoadTexture : Handle
  CreateSampler : Handle
  CreateRenderTarget : Handle
  CreateTexture : Handle

/-- The data members of `class Tutorial05`, and the statics `rot0`, `rot1` of
`OnDrawFrame`. -/
structure App (Mat : Type) where
  shaderProgram : Handle
  pipeline : Handle
  vertexBuffer : Handle
  indexBuffer : Handle
  constantBuffer : Handle
  colorMap : Handle
  samplerState : Handle
  renderTarget : Handle
  renderTargetTex : Handle
  renderTargetProj : Mat
  settings : Settings Mat
  rot0 : ℚ
  rot1 : ℚ

/-- The member `renderTargetSize`: `Gs::Vector2ui(64)` with custom multi-sampling,
`Gs::Vector2ui(512)` without. -/
def renderTargetSize (cfg : BuildConfig) : Vector2 Nat :=
  Vector2.ofScalar (if cfg.customMultisampling then 64 else 512)

/-- The object before the body of the constructor runs: every pointer member is
`nullptr`, `settings.useTexture2DMS` is `0`, the statics are zero. -/
def App.init {Mat Dir Rad : Type} (gs : GsLib Mat Dir Rad) : App Mat :=
  { shaderProgram := none, pipeline := none, vertexBuffer := none, indexBuffer := none,
    constantBuffer := none, colorMap := none, samplerState := none, renderTarget := none,
    renderTargetTex := none, renderTargetProj := gs.Matrix4f,
    settings := ⟨gs.Matrix4f, 0⟩, rot0 := 0, rot1 := 0 }

/-! ## State-passing programs -/

inductive Err where
  | nullDereference
deriving DecidableEq

/-- A program over the members of the object: it may stop with an error, and otherwise
gives a result, the new members and the log of the calls it made, in program order. -/
def Exec (Mat : Type) (α : Type) : Type :=
  App Mat → Except Err (α × App Mat × List (Entry Mat))

instance (Mat : Type) : Monad (Exec Mat) where
  pure a := fun s => Except.ok (a, s, [])
  bind x f := fun s =>
    match x s with
    | Except.error e => Except.error e
    | Except.ok (a, s1, l1) =>
      match f a s1 with
      | Except.error e => Except.error e
      | Except.ok (b, s2, l2) => Except.ok (b, s2, l1 ++ l2)

/-- Read the members. -/
def getApp {Mat : Type} : Exec Mat (App Mat) := fun s => Except.ok (s, s, [])

/-- Write members. -/
def modifyApp {Mat : Type} (f : App Mat → App Mat) : Exec Mat Unit :=
  fun s => Except.ok ((), f s, [])

/-- Make a call: it is logged together with the current value of `settings`. -/
def call {Mat : Type} (c : Call Mat) : Exec Mat Unit :=
  fun s => Except.ok ((), s, [⟨c, s.settings⟩])

/-- The operators `*p` and `p->`. -/
def deref {Mat : Type} (p : Handle) : Exec Mat Nat :=
  fun s =>
    match p with
    | none => Except.error Err.nullDereference
    | some a => Except.ok (a, s, [])

/-! ## The member functions of `Tutorial05` -/

section Programs

variable {Mat Dir Rad : Type}

/-- The constant `shaderStages` of `OnDrawFrame`:
`ShaderStageFlags::VertexStage | ShaderStageFlags::FragmentStage`. -/
def shaderStages : ShaderStageFlags := [ShaderStage.VertexStage, ShaderStage.FragmentStage]

/-- The default value `{ 0, 1, 0 }` of the parameter `axis` of `UpdateModelTransform`. -/
def defaultAxis : Vector3 ℚ := ⟨0, 1, 0⟩

/-- The statement `v.texCoord = (v.texCoord - Gs::Vector2f(0.5f))*1.05f + Gs::Vector2f(0.5f)`
of the loop in `CreateBuffers`, for one vertex. -/
def scaleTexCoord (v : VertexPosTexCoord) : VertexPosTexCoord :=
  { v with
    texCoord := ((v.texCoord.sub (Vector2.ofScalar 0.5)).mulScalar 1.05).add (Vector2.ofScalar 0.5) }

/-- Modelled from the spec: the helper `UpdateBuffer(buffer, data)` of the base class
(`../tutorial.h`), which uploads the settings structure `data` to the constant buffer
`*buffer`. -/
def UpdateBuffer (buffer : Handle) (data : Settings Mat) : Exec Mat Unit := do
  let b ← deref buffer
  call (Call.UpdateBuffer b data)

/-- The function `Tutorial05::CreateBuffers` (lines 75-94). -/
def CreateBuffers (base : Tutorial Mat) (rs : RenderSystem) : Exec Mat VertexFormat := do
  let vertexFormat : VertexFormat := []
  let vertexFormat := vertexFormat ++ [⟨"position", DataType.Float, 3⟩]
  let vertexFormat := vertexFormat ++ [⟨"texCoord", DataType.Float, 2⟩]
  call Call.GenerateTexturedCubeVertices
  let vertices := base.GenerateTexturedCubeVertices
  let vertices := vertices.map scaleTexCoord
  call (Call.CreateVertexBuffer vertices vertexFormat)
  modifyApp fun a => { a with vertexBuffer := rs.CreateVertexBuffer }
  call Call.GenerateTexturedCubeTriangleIndices
  call (Call.CreateIndexBuffer base.GenerateTexturedCubeTriangleIndices DataType.UInt32)
  modifyApp fun a => { a with indexBuffer := rs.CreateIndexBuffer }
  call (Call.CreateConstantBuffer (← getApp).settings)
  modifyApp fun a => { a with constantBuffer := rs.CreateConstantBuffer }
  return vertexFormat

/-- The function `Tutorial05::CreatePipelines` (lines 96-112). -/
def CreatePipelines (cfg : BuildConfig) (rs : RenderSystem) : Exec Mat Unit := do
  let pipelineDesc := GraphicsPipelineDescriptor.default
  let pipelineDesc := { pipelineDesc with shaderProgram := (← getApp).shaderProgram }
  let pipelineDesc := { pipelineDesc with depthTestEnabled := true }
  let pipelineDesc := { pipelineDesc with depthWriteEnabled := true }
  let pipelineDesc := { pipelineDesc with cullMode := CullMode.Back }
  let pipelineDesc :=
    if cfg.ENABLE_MULTISAMPLING then { pipelineDesc with samplingEnabled := true }
    else pipelineDesc
  call (Call.CreateGraphicsPipeline pipelineDesc)
  modifyApp fun a => { a with pipeline := rs.CreateGraphicsPipeline }

/-- The function `Tutorial05::CreateColorMap` (lines 114-128). -/
def CreateColorMap (rs : RenderSystem) : Exec Mat Unit := do
  call (Call.LoadTexture "colorMap.jpg")
  modifyApp fun a => { a with colorMap := rs.LoadTexture }
  let samplerDesc : SamplerDescriptor :=
    { textureWrapU := TextureWrap.Border, textureWrapV := TextureWrap.Border,
      maxAnisotropy := 8, borderColor := [0, 0, 0, 1] }
  call (Call.CreateSampler samplerDesc)
  modifyApp fun a => { a with samplerState := rs.CreateSampler }

/-- The function `Tutorial05::CreateRenderTarget` (lines 130-166). -/
def CreateRenderTarget (cfg : BuildConfig) (gs : GsLib Mat Dir Rad) (rs : RenderSystem) :
    Exec Mat Unit := do
  let multiSamples : Nat := if cfg.ENABLE_MULTISAMPLING then 8 else 0
  call (Call.CreateRenderTarget multiSamples)
  modifyApp fun a => { a with renderTarget := rs.CreateRenderTarget }
  if cfg.customMultisampling then
    call (Call.CreateTexture (TextureDescriptor.Texture2DMSDesc TextureFormat.RGBA
      (renderTargetSize cfg).x (renderTargetSize cfg).y multiSamples))
    modifyApp fun a => { a with renderTargetTex := rs.CreateTexture }
  else
    call (Call.CreateTexture (TextureDescriptor.Texture2DDesc TextureFormat.RGBA
      (renderTargetSize cfg).x (renderTargetSize cfg).y))
    modifyApp fun a => { a with renderTargetTex := rs.CreateTexture }
  let tex ← deref (← getApp).renderTargetTex
  call (Call.GenerateMips tex)
  let rt ← deref (← getApp).renderTarget
  call (Call.AttachDepthBuffer rt (renderTargetSize cfg))
  let rt ← deref (← getApp).renderTarget
  let tex ← deref (← getApp).renderTargetTex
  call (Call.AttachTexture rt tex)
  modifyApp fun a =>
    { a with renderTargetProj := gs.Perspective 1.0 0.1 100.0 (gs.Deg2Rad 45.0) }

/-- The constructor `Tutorial05::Tutorial05` (lines 59-73). -/
def construct (cfg : BuildConfig) (gs : GsLib Mat Dir Rad) (base : Tutorial Mat)
    (rs : RenderSystem) : Exec Mat Unit := do
  let vertexFormat ← CreateBuffers base rs
  call (Call.LoadStandardShaderProgram vertexFormat)
  modifyApp fun a => { a with shaderProgram := rs.LoadStandardShaderProgram }
  CreatePipelines cfg rs
  CreateColorMap rs
  CreateRenderTarget cfg gs rs
  call (Call.Print
    "press LEFT MOUSE BUTTON and move the mouse on the X-axis to rotate the OUTER cube")
  call (Call.Print
    "press RIGHT MOUSE BUTTON and move the mouse on the X-axis to rotate the INNER cube")
  call (Call.Print "press RETURN KEY to save the render target texture to a PNG file")

/-- The function `Tutorial05::UpdateModelTransform` (lines 170-175); the default argument
of `axis` is passed by the caller as `defaultAxis`. -/
def UpdateModelTransform (gs : GsLib Mat Dir Rad) (proj : Mat) (rotation : ℚ)
    (axis : Vector3 ℚ) : Exec Mat Unit := do
  modifyApp fun a => { a with settings := { a.settings with wvpMatrix := proj } }
  modifyApp fun a =>
    { a with settings :=
        { a.settings with wvpMatrix := gs.Translate a.settings.wvpMatrix ⟨0, 0, 5⟩ } }
  modifyApp fun a =>
    { a with settings :=
        { a.settings with
          wvpMatrix := gs.RotateFree a.settings.wvpMatrix (gs.Normalized axis) rotation } }

/-- The function `Tutorial05::OnDrawFrame` (lines 177-305). -/
def OnDrawFrame (cfg : BuildConfig) (gs : GsLib Mat Dir Rad) (base : Tutorial Mat)
    (input : Input) : Exec Mat Unit := do
  -- Update scene animation (simple rotation)
  call (Call.KeyPressed Key.LButton)
  if input.KeyPressed Key.LButton then
    call Call.GetMouseMotion
    modifyApp fun a => { a with rot0 := a.rot0 + (input.GetMouseMotion.x : ℚ) * 0.005 }
  call (Call.KeyPressed Key.RButton)
  if input.KeyPressed Key.RButton then
    call Call.GetMouseMotion
    modifyApp fun a => { a with rot1 := a.rot1 + (input.GetMouseMotion.x : ℚ) * 0.005 }
  -- Set common buffers and sampler states
  call (Call.SetIndexBuffer (← deref (← getApp).indexBuffer))
  call (Call.SetVertexBuffer (← deref (← getApp).vertexBuffer))
  call (Call.SetConstantBuffer (← deref (← getApp).constantBuffer) 0 shaderStages)
  call (Call.SetSampler (← deref (← getApp).samplerState) 0 shaderStages)
  -- Set graphics pipeline state
  call (Call.SetGraphicsPipeline (← deref (← getApp).pipeline))
  if base.IsOpenGL then
    let apiState := GraphicsAPIDependentStateDescriptor.default
    let apiState := { apiState with invertFrontFace := true }
    call (Call.SetGraphicsAPIDependentState apiState)
  -- Draw scene into render-target
  call (Call.SetRenderTarget (← deref (← getApp).renderTarget))
  call (Call.SetViewport
    ⟨0, 0, ((renderTargetSize cfg).x : ℚ), ((renderTargetSize cfg).y : ℚ)⟩)
  call (Call.SetClearColor [0.2, 0.7, 0.1])
  call (Call.ClearBuffers [ClearBuffer.Color, ClearBuffer.Depth])
  call (Call.SetTexture (← deref (← getApp).colorMap) 0 shaderStages)
  UpdateModelTransform gs (← getApp).renderTargetProj (← getApp).rot1 (Vector3.ofScalar 1)
  if base.IsOpenGL then
    modifyApp fun a =>
      { a with settings := { a.settings with wvpMatrix := gs.FlipAxis a.settings.wvpMatrix 1 } }
  if cfg.customMultisampling then
    modifyApp fun a => { a with settings := { a.settings with useTexture2DMS := 0 } }
  UpdateBuffer (← getApp).constantBuffer (← getApp).settings
  call (Call.DrawIndexed 36 0)
  call Call.UnsetRenderTarget
  -- Generate MIP-maps again after texture has been written by the render-target
  call (Call.GenerateMips (← deref (← getApp).renderTargetTex))
  if base.IsOpenGL then
    call (Call.SetGraphicsAPIDependentState GraphicsAPIDependentStateDescriptor.default)
  -- Reset viewport for the screen
  call Call.GetVideoMode
  let resolution : Vector2 ℚ := ⟨(base.resolution.x : ℚ), (base.resolution.y : ℚ)⟩
  call (Call.SetViewport ⟨0, 0, resolution.x, resolution.y⟩)
  call (Call.SetClearColor base.defaultClearColor)
  call (Call.ClearBuffers [ClearBuffer.Color, ClearBuffer.Depth])
  if cfg.customMultisampling then
    call (Call.SetTexture (← deref (← getApp).renderTargetTex) 1 shaderStages)
  else
    call (Call.SetTexture (← deref (← getApp).renderTargetTex) 0 shaderStages)
  if cfg.customMultisampling then
    modifyApp fun a => { a with settings := { a.settings with useTexture2DMS := 1 } }
  -- Update model transformation with standard projection
  UpdateModelTransform gs base.projection (← getApp).rot0 defaultAxis
  UpdateBuffer (← getApp).constantBuffer (← getApp).settings
  call (Call.DrawIndexed 36 0)
  call Call.Present
  -- Check if user wants to save the render target texture to file
  call (Call.KeyDown Key.Return)
  if input.KeyDown Key.Return then
    call (Call.SaveTexture (← deref (← getApp).renderTargetTex) "RenderTargetTexture.png")

/-- Modelled from the spec: the frame-synchronous rendering loop of the base class
(`../tutorial.h`), which after initialization calls `OnDrawFrame` once per frame, each
frame with its own input state. -/
def runFrames (cfg : BuildConfig) (gs : GsLib Mat Dir Rad) (base : Tutorial Mat) :
    List Input → Exec Mat Unit
  | [] => pure ()
  | input :: rest => do
    OnDrawFrame cfg gs base input
    runFrames cfg gs base rest

end Programs

/-! ## One frame in closed form -/

section ClosedForm

variable {Mat Dir Rad : Type}

/-- The addresses of the nine library objects the class points to. -/
structure Resources where
  shaderProgram : Nat
  pipeline : Nat
  vertexBuffer : Nat
  indexBuffer : Nat
  constantBuffer : Nat
  colorMap : Nat
  samplerState : Nat
  renderTarget : Nat
  renderTargetTex : Nat
deriving DecidableEq

/-- Every pointer member of the object is non-null and holds the address given by `r`. -/
def App.Holds (app : App Mat) (r : Resources) : Prop :=
  app.shaderProgram = some r.shaderProgram ∧ app.pipeline = some r.pipeline ∧
  app.vertexBuffer = some r.vertexBuffer ∧ app.indexBuffer = some r.indexBuffer ∧
  app.constantBuffer = some r.constantBuffer ∧ app.colorMap = some r.colorMap ∧
  app.samplerState = some r.samplerState ∧ app.renderTarget = some r.renderTarget ∧
  app.renderTargetTex = some r.renderTargetTex

instance (app : App Mat) (r : Resources) : Decidable (app.Holds r) := by
  unfold App.Holds
  infer_instance

/-- The calls of a log, without the recorded `settings`. -/
def calls (log : List (Entry Mat)) : List (Call Mat) := log.map Entry.call

/-- Log entries for calls that are all made while `settings` has the value `s`. -/
def entries (s : Settings Mat) (cs : List (Call Mat)) : List (Entry Mat) :=
  cs.map fun c => ⟨c, s⟩

/-- The value of `rot0` after the frame. -/
def nextRot0 (input : Input) (app : App Mat) : ℚ :=
  if input.KeyPressed Key.LButton then app.rot0 + (input.GetMouseMotion.x : ℚ) * 0.005
  else app.rot0

/-- The value of `rot1` after the frame. -/
def nextRot1 (input : Input) (app : App Mat) : ℚ :=
  if input.KeyPressed Key.RButton then app.rot1 + (input.GetMouseMotion.x : ℚ) * 0.005
  else app.rot1

/-- The matrix that `UpdateModelTransform(proj, rotation, axis)` leaves in
`settings.wvpMatrix`. -/
def modelTransform (gs : GsLib Mat Dir Rad) (proj : Mat) (rotation : ℚ) (axis : Vector3 ℚ) :
    Mat :=
  gs.RotateFree (gs.Translate proj ⟨0, 0, 5⟩) (gs.Normalized axis) rotation

/-- The value of `settings` at the first `UpdateBuffer` of a frame. -/
def targetSettings (cfg : BuildConfig) (gs : GsLib Mat Dir Rad) (base : Tutorial Mat)
    (input : Input) (app : App Mat) : Settings Mat :=
  { wvpMatrix :=
      if base.IsOpenGL then
        gs.FlipAxis (modelTransform gs app.renderTargetProj (nextRot1 input app)
          (Vector3.ofScalar 1)) 1
      else modelTransform gs app.renderTargetProj (nextRot1 input app) (Vector3.ofScalar 1)
    useTexture2DMS := if cfg.customMultisampling then 0 else app.settings.useTexture2DMS }

/-- The value of `settings` at the second `UpdateBuffer` of a frame. -/
def screenSettings (cfg : BuildConfig) (gs : GsLib Mat Dir Rad) (base : Tutorial Mat)
    (input : Input) (app : App Mat) : Settings Mat :=
  { wvpMatrix := modelTransform gs base.projection (nextRot0 input app) defaultAxis
    useTexture2DMS := if cfg.customMultisampling then 1 else app.settings.useTexture2DMS }

/-- The members after one frame. -/
def frameApp (cfg : BuildConfig) (gs : GsLib Mat Dir Rad) (base : Tutorial Mat)
    (input : Input) (app : App Mat) : App Mat :=
  { app with
    rot0 := nextRot0 input app
    rot1 := nextRot1 input app
    settings := screenSettings cfg gs base input app }

/-- The calls of one frame up to the first `UpdateBuffer`. -/
def targetSetupCalls (cfg : BuildConfig) (base : Tutorial Mat) (input : Input)
    (r : Resources) : List (Call Mat) :=
  [Call.KeyPressed Key.LButton] ++
  (if input.KeyPressed Key.LButton then [Call.GetMouseMotion] else []) ++
  [Call.KeyPressed Key.RButton] ++
  (if input.KeyPressed Key.RButton then [Call.GetMouseMotion] else []) ++
  [Call.SetIndexBuffer r.indexBuffer, Call.SetVertexBuffer r.vertexBuffer,
   Call.SetConstantBuffer r.constantBuffer 0 shaderStages,
   Call.SetSampler r.samplerState 0 shaderStages,
   Call.SetGraphicsPipeline r.pipeline] ++
  (if base.IsOpenGL then [Call.SetGraphicsAPIDependentState ⟨true⟩] else []) ++
  [Call.SetRenderTarget r.renderTarget,
   Call.SetViewport ⟨0, 0, ((renderTargetSize cfg).x : ℚ), ((renderTargetSize cfg).y : ℚ)⟩,
   Call.SetClearColor [0.2, 0.7, 0.1],
   Call.ClearBuffers [ClearBuffer.Color, ClearBuffer.Depth],
   Call.SetTexture r.colorMap 0 shaderStages]

/-- The calls of one frame from the first `UpdateBuffer` up to the second. -/
def targetDrawCalls (cfg : BuildConfig) (base : Tutorial Mat) (r : Resources)
    (s : Settings Mat) : List (Call Mat) :=
  [Call.UpdateBuffer r.constantBuffer s, Call.DrawIndexed 36 0, Call.UnsetRenderTarget,
   Call.GenerateMips r.renderTargetTex] ++
  (if base.IsOpenGL then [Call.SetGraphicsAPIDependentState ⟨false⟩] else []) ++
  [Call.GetVideoMode,
   Call.SetViewport ⟨0, 0, (base.resolution.x : ℚ), (base.resolution.y : ℚ)⟩,
   Call.SetClearColor base.defaultClearColor,
   Call.ClearBuffers [ClearBuffer.Color, ClearBuffer.Depth],
   Call.SetTexture r.renderTargetTex (if cfg.customMultisampling then 1 else 0) shaderStages]

/-- The calls of one frame from the second `UpdateBuffer` on. -/
def screenDrawCalls (input : Input) (r : Resources) (s : Settings Mat) : List (Call Mat) :=
  [Call.UpdateBuffer r.constantBuffer s, Call.DrawIndexed 36 0, Call.Present,
   Call.KeyDown Key.Return] ++
  (if input.KeyDown Key.Return then
    [Call.SaveTexture r.renderTargetTex "RenderTargetTexture.png"] else [])

/-- The log of one frame. -/
def frameLog (cfg : BuildConfig) (gs : GsLib Mat Dir Rad) (base : Tutorial Mat)
    (input : Input) (app : App Mat) (r : Resources) : List (Entry Mat) :=
  entries app.settings (targetSetupCalls cfg base input r) ++
  entries (targetSettings cfg gs base input app)
    (targetDrawCalls cfg base r (targetSettings cfg gs base input app)) ++
  entries (screenSettings cfg gs base input app)
    (screenDrawCalls input r (screenSettings cfg gs base input app))

/-! ## The constructor in closed form -/

/-- Every creation call returns a non-null pointer, namely the address given by `r`. -/
def RenderSystem.Provides (rs : RenderSystem) (r : Resources) : Prop :=
  rs.CreateVertexBuffer = some r.vertexBuffer ∧ rs.CreateIndexBuffer = some r.indexBuffer ∧
  rs.CreateConstantBuffer = some r.constantBuffer ∧
  rs.LoadStandardShaderProgram = some r.shaderProgram ∧
  rs.CreateGraphicsPipeline = some r.pipeline ∧ rs.LoadTexture = some r.colorMap ∧
  rs.CreateSampler = some r.samplerState ∧ rs.CreateRenderTarget = some r.renderTarget ∧
  rs.CreateTexture = some r.renderTargetTex

instance (rs : RenderSystem) (r : Resources) : Decidable (rs.Provides r) := by
  unfold RenderSystem.Provides
  infer_instance

/-- The vertex format that `CreateBuffers` returns. -/
def cubeVertexFormat : VertexFormat :=
  [⟨"position", DataType.Float, 3⟩, ⟨"texCoord", DataType.Float, 2⟩]

/-- The members after the constructor. -/
def constructedApp (gs : GsLib Mat Dir Rad) (r : Resources) : App Mat :=
  { shaderProgram := some r.shaderProgram, pipeline := some r.pipeline,
    vertexBuffer := some r.vertexBuffer, indexBuffer := some r.indexBuffer,
    constantBuffer := some r.constantBuffer, colorMap := some r.colorMap,
    samplerState := some r.samplerState, renderTarget := some r.renderTarget,
    renderTargetTex := some r.renderTargetTex,
    renderTargetProj := gs.Perspective 1.0 0.1 100.0 (gs.Deg2Rad 45.0),
    settings := ⟨gs.Matrix4f, 0⟩, rot0 := 0, rot1 := 0 }

/-- The calls of `CreateBuffers`. -/
def createBuffersCalls (base : Tutorial Mat) (s : Settings Mat) : List (Call Mat) :=
  [Call.GenerateTexturedCubeVertices,
   Call.CreateVertexBuffer (base.GenerateTexturedCubeVertices.map scaleTexCoord)
     cubeVertexFormat,
   Call.GenerateTexturedCubeTriangleIndices,
   Call.CreateIndexBuffer base.GenerateTexturedCubeTriangleIndices DataType.UInt32,
   Call.CreateConstantBuffer s]

/-- The calls of `CreateRenderTarget`. -/
def createRenderTargetCalls (cfg : BuildConfig) (r : Resources) : List (Call Mat) :=
  [Call.CreateRenderTarget (if cfg.ENABLE_MULTISAMPLING then 8 else 0),
   Call.CreateTexture
     (if cfg.customMultisampling then
        TextureDescriptor.Texture2DMSDesc TextureFormat.RGBA (renderTargetSize cfg).x
          (renderTargetSize cfg).y (if cfg.ENABLE_MULTISAMPLING then 8 else 0)
      else
        TextureDescriptor.Texture2DDesc TextureFormat.RGBA (renderTargetSize cfg).x
          (renderTargetSize cfg).y),
   Call.GenerateMips r.renderTargetTex,
   Call.AttachDepthBuffer r.renderTarget (renderTargetSize cfg),
   Call.AttachTexture r.renderTarget r.renderTargetTex]

/-- The calls of the constructor. -/
def constructCalls (cfg : BuildConfig) (gs : GsLib Mat Dir Rad) (base : Tutorial Mat)
    (r : Resources) : List (Call Mat) :=
  createBuffersCalls base ⟨gs.Matrix4f, 0⟩ ++
  [Call.LoadStandardShaderProgram cubeVertexFormat,
   Call.CreateGraphicsPipeline
     ⟨some r.shaderProgram, true, true, CullMode.Back, cfg.ENABLE_MULTISAMPLING⟩,
   Call.LoadTexture "colorMap.jpg",
   Call.CreateSampler ⟨TextureWrap.Border, TextureWrap.Border, 8, [0, 0, 0, 1]⟩] ++
  createRenderTargetCalls cfg r ++
  [Call.Print
     "press LEFT MOUSE BUTTON and move the mouse on the X-axis to rotate the OUTER cube",
   Call.Print
     "press RIGHT MOUSE BUTTON and move the mouse on the X-axis to rotate the INNER cube",
   Call.Print "press RETURN KEY to save the render target texture to a PNG file"]

/-- The scaling of one texture coordinate in the words of the specification:
`s(t) = (t - 0.5) * 1.05 + 0.5`. -/
def specScale (t : ℚ) : ℚ := (t - 0.5) * 1.05 + 0.5

/-! ## A concrete frame

The matrix type of the instance below is the type of expressions over the GaussianLib
functions, so that a matrix records how it was built. -/

/-- Matrix expressions: each constructor stands for one GaussianLib function. -/
inductive MatExpr where
  | Matrix4f
  | screenProjection
  | Perspective (aspect near far fovDegrees : ℚ)
  | Translate (m : MatExpr) (v : Vector3 ℚ)
  | RotateFree (m : MatExpr) (axis : Vector3 ℚ) (angle : ℚ)
  | FlipAxis (m : MatExpr) (axis : Nat)
deriving DecidableEq

/-- GaussianLib over matrix expressions; an axis to be normalized and an angle in degrees
stand for their images. -/
def exprGs : GsLib MatExpr (Vector3 ℚ) ℚ :=
  { Matrix4f := MatExpr.Matrix4f
    Translate := MatExpr.Translate
    RotateFree := MatExpr.RotateFree
    FlipAxis := MatExpr.FlipAxis
    Normalized := fun v => v
    Deg2Rad := fun d => d
    Perspective := MatExpr.Perspective }

/-- Nine distinct addresses. -/
def demoResources : Resources :=
  { shaderProgram := 1, pipeline := 2, vertexBuffer := 3, indexBuffer := 4,
    constantBuffer := 5, colorMap := 6, samplerState := 7, renderTarget := 8,
    renderTargetTex := 9 }

/-- A render system whose creation calls return the addresses of `demoResources`. -/
def demoRenderSystem : RenderSystem :=
  { CreateVertexBuffer := some 3, CreateIndexBuffer := some 4, CreateConstantBuffer := some 5,
    LoadStandardShaderProgram := some 1, CreateGraphicsPipeline := some 2,
    LoadTexture := some 6, CreateSampler := some 7, CreateRenderTarget := some 8,
    CreateTexture := some 9 }

/-- A base class on an OpenGL renderer with an 800 x 600 window and a one-vertex mesh. -/
def demoBase : Tutorial MatExpr :=
  { projection := MatExpr.screenProjection
    defaultClearColor := [0, 0, 0]
    IsOpenGL := true
    resolution := ⟨800, 600⟩
    GenerateTexturedCubeVertices := [⟨⟨-1, -1, -1⟩, ⟨0, 1⟩⟩]
    GenerateTexturedCubeTriangleIndices := [0, 1, 2] }

/-- A frame in which the left button is held, the mouse moved by 10 and Return is down. -/
def demoInput : Input :=
  { KeyPressed := fun k => decide (k = Key.LButton)
    KeyDown := fun k => decide (k = Key.Return)
    GetMouseMotion := ⟨10, 0⟩ }

/-- An object whose pointer members hold the addresses of `demoResources`. -/
def demoApp : App MatExpr :=
  { shaderProgram := some 1, pipeline := some 2, vertexBuffer := some 3,
    indexBuffer := some 4, constantBuffer := some 5, colorMap := some 6,
    samplerState := some 7, renderTarget := some 8, renderTargetTex := some 9,
    renderTargetProj := MatExpr.Perspective 1.0 0.1 100.0 45.0,
    settings := ⟨MatExpr.Matrix4f, 0⟩, rot0 := 0, rot1 := 0 }

/-! ## The order of the calls of a frame -/

/-- The order of the calls of a frame in the words of the specification: mouse input,
draw into the render target, regenerate the mip levels, switch back to the main
framebuffer, bind the render-target texture, draw, present, and then the optional save. -/
def specOrder (cfg : BuildConfig) (input : Input) (r : Resources) : List (Call Mat) :=
  [Call.KeyPressed Key.LButton, Call.KeyPressed Key.RButton,
   Call.SetRenderTarget r.renderTarget, Call.DrawIndexed 36 0,
   Call.GenerateMips r.renderTargetTex, Call.UnsetRenderTarget,
   Call.SetTexture r.renderTargetTex (if cfg.customMultisampling then 1 else 0) shaderStages,
   Call.DrawIndexed 36 0, Call.Present, Call.KeyDown Key.Return] ++
  (if input.KeyDown Key.Return then
    [Call.SaveTexture r.renderTargetTex "RenderTargetTexture.png"] else [])

/-- The order of `specOrder` with the switch back to the main framebuffer ahead of the
regeneration of the mip levels. -/
def frameOrder (cfg : BuildConfig) (input : Input) (r : Resources) : List (Call Mat) :=
  [Call.KeyPressed Key.LButton, Call.KeyPressed Key.RButton,
   Call.SetRenderTarget r.renderTarget, Call.DrawIndexed 36 0,
   Call.UnsetRenderTarget, Call.GenerateMips r.renderTargetTex,
   Call.SetTexture r.renderTargetTex (if cfg.customMultisampling then 1 else 0) shaderStages,
   Call.DrawIndexed 36 0, Call.Present, Call.KeyDown Key.Return] ++
  (if input.KeyDown Key.Return then
    [Call.SaveTexture r.renderTargetTex "RenderTargetTexture.png"] else [])

end ClosedForm

/-! ## Observations on a log -/

section Observations

variable {Mat : Type}

/-- The data of the `UpdateBuffer` calls of a log, in order. -/
def uploads (log : List (Entry Mat)) : List (Settings Mat) :=
  log.filterMap fun e =>
    match e.call with
    | Call.UpdateBuffer _ data => some data
    | _ => none

def Call.isUpdateBuffer : Call Mat → Bool
  | Call.UpdateBuffer _ _ => true
  | _ => false

def Call.isDrawIndexed : Call Mat → Bool
  | Call.DrawIndexed _ _ => true
  | _ => false

def Call.isSetRenderTarget : Call Mat → Bool
  | Call.SetRenderTarget _ => true
  | _ => false

def Call.isUnsetRenderTarget : Call Mat → Bool
  | Call.UnsetRenderTarget => true
  | _ => false

def Call.isGenerateMips : Call Mat → Bool
  | Call.GenerateMips _ => true
  | _ => false

def Call.isSetTexture : Call Mat → Bool
  | Call.SetTexture _ _ _ => true
  | _ => false

def Call.isSetViewport : Call Mat → Bool
  | Call.SetViewport _ => true
  | _ => false

def Call.isClearBuffers : Call Mat → Bool
  | Call.ClearBuffers _ => true
  | _ => false

def Call.isSetGraphicsAPIDependentState : Call Mat → Bool
  | Call.SetGraphicsAPIDependentState _ => true
  | _ => false

def Call.isKeyPressed : Call Mat → Bool
  | Call.KeyPressed _ => true
  | _ => false

def Call.isGetMouseMotion : Call Mat → Bool
  | Call.GetMouseMotion => true
  | _ => false

def Call.isPresent : Call Mat → Bool
  | Call.Present => true
  | _ => false

def Call.isKeyDown : Call Mat → Bool
  | Call.KeyDown _ => true
  | _ => false

def Call.isSaveTexture : Call Mat → Bool
  | Call.SaveTexture _ _ => true
  | _ => false

/-- The calls of a log that set the API dependent state, change the render target, upload
the settings or draw. -/
def stateAndDrawCalls (log : List (Entry Mat)) : List (Call Mat) :=
  (calls log).filter fun c =>
    c.isSetGraphicsAPIDependentState || c.isSetRenderTarget || c.isUnsetRenderTarget ||
      c.isUpdateBuffer || c.isDrawIndexed

/-- The calls of a log that change the render target, set the viewport, clear or draw. -/
def viewportAndDrawCalls (log : List (Entry Mat)) : List (Call Mat) :=
  (calls log).filter fun c =>
    c.isSetRenderTarget || c.isUnsetRenderTarget || c.isSetViewport || c.isClearBuffers ||
      c.isDrawIndexed

/-- The calls of a log that change the render target, bind a texture, generate mip levels
or draw. -/
def mipsAndDrawCalls (log : List (Entry Mat)) : List (Call Mat) :=
  (calls log).filter fun c =>
    c.isSetRenderTarget || c.isUnsetRenderTarget || c.isSetTexture || c.isGenerateMips ||
      c.isDrawIndexed

/-- The calls of a log that draw, present, read a key state or save a texture. -/
def presentAndSaveCalls (log : List (Entry Mat)) : List (Call Mat) :=
  (calls log).filter fun c => c.isDrawIndexed || c.isPresent || c.isKeyDown || c.isSaveTexture

/-- The calls of a log that read the input, change the render target, draw, generate
mip levels, bind a texture, present or save a texture: every kind of call that the order
of a frame speaks of. -/
def orderedCalls (log : List (Entry Mat)) : List (Call Mat) :=
  (calls log).filter fun c =>
    c.isKeyPressed || c.isGetMouseMotion || c.isKeyDown || c.isSetRenderTarget ||
      c.isUnsetRenderTarget || c.isDrawIndexed || c.isGenerateMips || c.isSetTexture ||
      c.isPresent || c.isSaveTexture

end Observations

/-! ## The binding state of the render context -/

section Bindings

variable {Mat : Type}

/-- Modelled from the spec: the binding state of the render context, whose implementation
is not in this file: the active render target (`none` is the main framebuffer, to which
the context is switched back) and the texture bound to each slot. -/
structure ContextState where
  renderTarget : Option Nat
  textures : Nat → Option Nat

/-- Modelled from the spec: the effect of a call on the binding state of the render
context: `SetRenderTarget` makes the render target the destination of rendering,
`UnsetRenderTarget` switches back to the main framebuffer, `SetTexture` binds the texture
to the slot; no other call changes a binding. -/
def ContextState.apply (c : ContextState) : Call Mat → ContextState
  | Call.SetRenderTarget rt => { c with renderTarget := some rt }
  | Call.UnsetRenderTarget => { c with renderTarget := none }
  | Call.SetTexture t slot _ =>
    { c with textures := fun i => if i = slot then some t else c.textures i }
  | _ => c

/-- What a `DrawIndexed` sees: the active render target and the texture in slot 0. -/
structure DrawState where
  renderTarget : Option Nat
  texture0 : Option Nat
deriving DecidableEq

/-- The binding states at the `DrawIndexed` calls of a sequence of calls that starts in
the binding state `c`. -/
def drawStates (c : ContextState) : List (Call Mat) → List DrawState
  | [] => []
  | x :: rest =>
    (if x.isDrawIndexed then [⟨c.renderTarget, c.textures 0⟩] else []) ++
      drawStates (c.apply x) rest

/-- The binding state after a sequence of calls. -/
def ContextState.run (c : ContextState) (cs : List (Call Mat)) : ContextState :=
  cs.foldl ContextState.apply c

end Bindings

/-! ## Lemmas -/

section Lemmas

variable {Mat Dir Rad : Type}

theorem OnDrawFrame_eq (cfg : BuildConfig) (gs : GsLib Mat Dir Rad) (base : Tutorial Mat)
    (input : Input) (app : App Mat) (r : Resources) (h : app.Holds r) :
    OnDrawFrame cfg gs base input app =
      Except.ok ((), frameApp cfg gs base input app, frameLog cfg gs base input app r) := by
  obtain ⟨h1, h2, h3, h4, h5, h6, h7, h8, h9⟩ := h
  obtain ⟨sp, pl, vb, ib, cb, cm, ss, rt, rtt, proj, st, r0, r1⟩ := app
  simp only at h1 h2 h3 h4 h5 h6 h7 h8 h9
  subst h1 h2 h3 h4 h5 h6 h7 h8 h9
  obtain ⟨ms, cms⟩ := cfg
  obtain ⟨pr, dcc, gl, res, gv, gi⟩ := base
  unfold OnDrawFrame frameApp frameLog targetSetupCalls targetDrawCalls screenDrawCalls
    targetSettings screenSettings nextRot0 nextRot1
  generalize input.KeyPressed Key.LButton = kl
  generalize input.KeyPressed Key.RButton = kr
  generalize input.KeyDown Key.Return = kd
  cases ms <;> cases cms <;> cases gl <;> cases kl <;> cases kr <;> cases kd <;> rfl

theorem UpdateModelTransform_eq (gs : GsLib Mat Dir Rad) (proj : Mat) (rotation : ℚ)
    (axis : Vector3 ℚ) (a : App Mat) :
    UpdateModelTransform gs proj rotation axis a = Except.ok ((),
      { a with settings := { a.settings with wvpMatrix := modelTransform gs proj rotation axis } },
      []) := rfl

theorem forall_false_of_all {α : Type} (f : α → Bool) (l : List α)
    (h : l.all (fun e => !f e) = true) : ∀ e ∈ l, f e = false := by
  intro e he
  have h1 := List.all_eq_true.mp h e he
  simpa using h1

theorem demoRenderSystem_provides : demoRenderSystem.Provides demoResources := by
  simp [RenderSystem.Provides, demoRenderSystem, demoResources]

theorem CreateBuffers_eq (base : Tutorial Mat) (rs : RenderSystem) (app : App Mat) :
    CreateBuffers base rs app = Except.ok (cubeVertexFormat,
      { app with vertexBuffer := rs.CreateVertexBuffer, indexBuffer := rs.CreateIndexBuffer,
                 constantBuffer := rs.CreateConstantBuffer },
      entries app.settings (createBuffersCalls base app.settings)) := rfl

theorem construct_eq (cfg : BuildConfig) (gs : GsLib Mat Dir Rad) (base : Tutorial Mat)
    (rs : RenderSystem) (r : Resources) (h : rs.Provides r) :
    construct cfg gs base rs (App.init gs) = Except.ok ((), constructedApp gs r,
      entries ⟨gs.Matrix4f, 0⟩ (constructCalls cfg gs base r)) := by
  obtain ⟨h1, h2, h3, h4, h5, h6, h7, h8, h9⟩ := h
  obtain ⟨vb, ib, cb, sp, pl, cm, ss, rt, rtt⟩ := rs
  simp only at h1 h2 h3 h4 h5 h6 h7 h8 h9
  subst h1 h2 h3 h4 h5 h6 h7 h8 h9
  obtain ⟨ms, cms⟩ := cfg
  cases ms <;> cases cms <;> rfl

theorem constructedApp_holds (gs : GsLib Mat Dir Rad) (r : Resources) :
    (constructedApp gs r).Holds r := by
  simp [App.Holds, constructedApp]

theorem bind_ok {α β : Type} (x : Exec Mat α) (f : α → Exec Mat β) (s s1 s2 : App Mat)
    (a : α) (b : β) (l1 l2 : List (Entry Mat)) (hx : x s = Except.ok (a, s1, l1))
    (hf : f a s1 = Except.ok (b, s2, l2)) :
    (x >>= f) s = Except.ok (b, s2, l1 ++ l2) := by
  show (match x s with
    | Except.error e => Except.error e
    | Except.ok (a, s1, l1) =>
      match f a s1 with
      | Except.error e => Except.error e
      | Except.ok (b, s2, l2) => Except.ok (b, s2, l1 ++ l2)) = _
  rw [hx]
  simp only
  rw [hf]

theorem calls_append (l1 l2 : List (Entry Mat)) : calls (l1 ++ l2) = calls l1 ++ calls l2 := by
  simp [calls]

theorem drawStates_append (c : ContextState) (l1 l2 : List (Call Mat)) :
    drawStates c (l1 ++ l2) = drawStates c l1 ++ drawStates (c.run l1) l2 := by
  induction l1 generalizing c with
  | nil => rfl
  | cons x rest ih =>
    show (if x.isDrawIndexed then [⟨c.renderTarget, c.textures 0⟩] else []) ++
        drawStates (c.apply x) (rest ++ l2) =
      ((if x.isDrawIndexed then [⟨c.renderTarget, c.textures 0⟩] else []) ++
        drawStates (c.apply x) rest) ++ drawStates ((c.apply x).run rest) l2
    rw [ih, List.append_assoc]

theorem drawStates_frame (cfg : BuildConfig) (gs : GsLib Mat Dir Rad) (base : Tutorial Mat)
    (input : Input) (app : App Mat) (r : Resources) (c : ContextState)
    (hcfg : cfg.customMultisampling = false) :
    drawStates c (calls (frameLog cfg gs base input app r)) =
      [⟨some r.renderTarget, some r.colorMap⟩, ⟨none, some r.renderTargetTex⟩] := by
  obtain ⟨pr, dcc, gl, res, gv, gi⟩ := base
  unfold calls frameLog entries targetSetupCalls targetDrawCalls screenDrawCalls
  rw [hcfg]
  generalize input.KeyPressed Key.LButton = kl
  generalize input.KeyPressed Key.RButton = kr
  generalize input.KeyDown Key.Return = kd
  cases gl <;> cases kl <;> cases kr <;> cases kd <;> rfl

theorem drawTargets_frame (cfg : BuildConfig) (gs : GsLib Mat Dir Rad) (base : Tutorial Mat)
    (input : Input) (app : App Mat) (r : Resources) (c : ContextState) :
    (drawStates c (calls (frameLog cfg gs base input app r))).map DrawState.renderTarget =
      [some r.renderTarget, none] := by
  obtain ⟨pr, dcc, gl, res, gv, gi⟩ := base
  unfold calls frameLog entries targetSetupCalls targetDrawCalls screenDrawCalls
  generalize input.KeyPressed Key.LButton = kl
  generalize input.KeyPressed Key.RButton = kr
  generalize input.KeyDown Key.Return = kd
  generalize (if cfg.customMultisampling = true then 1 else 0 : Nat) = slot
  cases gl <;> cases kl <;> cases kr <;> cases kd <;> rfl

theorem orderedCalls_frame (cfg : BuildConfig) (gs : GsLib Mat Dir Rad) (base : Tutorial Mat)
    (input : Input) (app : App Mat) (r : Resources) :
    orderedCalls (frameLog cfg gs base input app r) =
      [Call.KeyPressed Key.LButton] ++
      (if input.KeyPressed Key.LButton then [Call.GetMouseMotion] else []) ++
      [Call.KeyPressed Key.RButton] ++
      (if input.KeyPressed Key.RButton then [Call.GetMouseMotion] else []) ++
      [Call.SetRenderTarget r.renderTarget,
       Call.SetTexture r.colorMap 0 shaderStages,
       Call.DrawIndexed 36 0,
       Call.UnsetRenderTarget,
       Call.GenerateMips r.renderTargetTex,
       Call.SetTexture r.renderTargetTex (if cfg.customMultisampling then 1 else 0)
         shaderStages,
       Call.DrawIndexed 36 0,
       Call.Present,
       Call.KeyDown Key.Return] ++
      (if input.KeyDown Key.Return then
        [Call.SaveTexture r.renderTargetTex "RenderTargetTexture.png"] else []) := by
  obtain ⟨pr, dcc, gl, res, gv, gi⟩ := base
  unfold orderedCalls calls frameLog entries targetSetupCalls targetDrawCalls
    screenDrawCalls
  generalize input.KeyPressed Key.LButton = kl
  generalize input.KeyPressed Key.RButton = kr
  generalize input.KeyDown Key.Return = kd
  cases gl <;> cases kl <;> cases kr <;> cases kd <;> rfl

theorem frameOrder_sublist (cfg : BuildConfig) (gs : GsLib Mat Dir Rad) (base : Tutorial Mat)
    (input : Input) (app : App Mat) (r : Resources) :
    List.Sublist (frameOrder cfg input r) (calls (frameLog cfg gs base input app r)) := by
  obtain ⟨ms, cms⟩ := cfg
  obtain ⟨pr, dcc, gl, res, gv, gi⟩ := base
  unfold frameOrder frameLog targetSetupCalls targetDrawCalls screenDrawCalls calls entries
  generalize input.KeyPressed Key.LButton = kl
  generalize input.KeyPressed Key.RButton = kr
  generalize input.KeyDown Key.Return = kd
  cases ms <;> cases cms <;> cases gl <;> cases kl <;> cases kr <;> cases kd <;>
    (simp only [BuildConfig.customMultisampling, Bool.and_self, Bool.and_true,
      Bool.and_false, Bool.false_eq_true, if_true, if_false, List.map_append, List.map_cons,
      List.map_nil, List.cons_append, List.nil_append, List.append_nil,
      List.singleton_append]
     repeat (first | apply List.Sublist.cons₂ | apply List.Sublist.cons)
     exact List.Sublist.slnil)

theorem uploads_frame (cfg : BuildConfig) (gs : GsLib Mat Dir Rad) (base : Tutorial Mat)
    (input : Input) (app : App Mat) (r : Resources) :
    (uploads (frameLog cfg gs base input app r)).map Settings.wvpMatrix =
      [if base.IsOpenGL
        then gs.FlipAxis (modelTransform gs app.renderTargetProj
          (frameApp cfg gs base input app).rot1 ⟨1, 1, 1⟩) 1
        else modelTransform gs app.renderTargetProj
          (frameApp cfg gs base input app).rot1 ⟨1, 1, 1⟩,
       modelTransform gs base.projection (frameApp cfg gs base input app).rot0 ⟨0, 1, 0⟩] := by
  obtain ⟨pr, dcc, gl, res, gv, gi⟩ := base
  unfold uploads frameApp frameLog entries targetSetupCalls targetDrawCalls screenDrawCalls
    targetSettings screenSettings nextRot0 nextRot1
  generalize input.KeyPressed Key.LButton = kl
  generalize input.KeyPressed Key.RButton = kr
  generalize input.KeyDown Key.Return = kd
  cases gl <;> cases kl <;> cases kr <;> cases kd <;>
    simp [Vector3.ofScalar, defaultAxis]

theorem runFrames_eq (cfg : BuildConfig) (gs : GsLib Mat Dir Rad) (base : Tutorial Mat)
    (r : Resources) (inputs : List Input) :
    ∀ app : App Mat, app.Holds r →
      ∃ app1 log, runFrames cfg gs base inputs app = Except.ok ((), app1, log) ∧
        app1.Holds r ∧
        (cfg.customMultisampling = false → ∀ c : ContextState,
          drawStates c (calls log) =
            (List.replicate inputs.length
              [(⟨some r.renderTarget, some r.colorMap⟩ : DrawState),
               ⟨none, some r.renderTargetTex⟩]).flatten) := by
  induction inputs with
  | nil =>
    intro app h
    exact ⟨app, [], rfl, h, fun _ _ => rfl⟩
  | cons input rest ih =>
    intro app h
    have h1 : (frameApp cfg gs base input app).Holds r := h
    obtain ⟨app1, log, hrun, hholds, hdraw⟩ := ih (frameApp cfg gs base input app) h1
    refine ⟨app1, frameLog cfg gs base input app r ++ log, ?_, hholds, ?_⟩
    · exact bind_ok (OnDrawFrame cfg gs base input) (fun _ => runFrames cfg gs base rest)
        app _ _ () () _ _ (OnDrawFrame_eq cfg gs base input app r h) hrun
    · intro hcfg c
      rw [calls_append, drawStates_append, drawStates_frame cfg gs base input app r c hcfg,
        hdraw hcfg]
      simp [List.replicate_succ]

theorem specScale_eq : specScale = fun t => (21 / 20) * t + (-1 / 40) := by
  funext t
  unfold specScale
  norm_num
  ring

theorem demoApp_holds : demoApp.Holds demoResources := by
  simp [App.Holds, demoApp, demoResources]

end Lemmas

/-! ## Theorems -/

section Theorems

variable {Mat Dir Rad : Type}

/-- C1, as stated, fails: in a frame of the default build on OpenGL the calls do not
contain the order of the specification, which has `GenerateMips(renderTargetTex)` ahead
of `UnsetRenderTarget`. -/
theorem spec_order_fails :
    ∃ app log, OnDrawFrame defaultBuild exprGs demoBase demoInput demoApp
        = Except.ok ((), app, log) ∧
      ¬ List.Sublist (specOrder defaultBuild demoInput demoResources) (calls log) := by
  refine ⟨_, _, OnDrawFrame_eq _ _ _ _ _ _ demoApp_holds, ?_⟩
  decide

/-- C1, amended: every frame returns, and the calls of the frame that read the input,
change the render target, draw, generate mip levels, bind a texture, present or save are
exactly these, in this order: the reads of the two mouse buttons (each followed by the
read of the mouse motion when the button is pressed), `SetRenderTarget(renderTarget)`,
`SetTexture(colorMap)`, `DrawIndexed`, `UnsetRenderTarget`,
`GenerateMips(renderTargetTex)`, `SetTexture(renderTargetTex)`, `DrawIndexed`, `Present`,
the read of the Return key and then, exactly when Return is down, one `SaveTexture`; the
first draw is made with `renderTarget` active and the second with the main framebuffer
active; the two angles are updated from the mouse input, and the two uploads of the
frame already hold the matrices of the updated angles. -/
theorem frame_call_order (cfg : BuildConfig) (gs : GsLib Mat Dir Rad) (base : Tutorial Mat)
    (input : Input) (app : App Mat) (r : Resources) (h : app.Holds r) :
    ∃ app1 log, OnDrawFrame cfg gs base input app = Except.ok ((), app1, log) ∧
      orderedCalls log =
        [Call.KeyPressed Key.LButton] ++
        (if input.KeyPressed Key.LButton then [Call.GetMouseMotion] else []) ++
        [Call.KeyPressed Key.RButton] ++
        (if input.KeyPressed Key.RButton then [Call.GetMouseMotion] else []) ++
        [Call.SetRenderTarget r.renderTarget,
         Call.SetTexture r.colorMap 0 shaderStages,
         Call.DrawIndexed 36 0,
         Call.UnsetRenderTarget,
         Call.GenerateMips r.renderTargetTex,
         Call.SetTexture r.renderTargetTex (if cfg.customMultisampling then 1 else 0)
           shaderStages,
         Call.DrawIndexed 36 0,
         Call.Present,
         Call.KeyDown Key.Return] ++
        (if input.KeyDown Key.Return then
          [Call.SaveTexture r.renderTargetTex "RenderTargetTexture.png"] else []) ∧
      (∀ c : ContextState, (drawStates c (calls log)).map DrawState.renderTarget =
        [some r.renderTarget, none]) ∧
      List.Sublist (frameOrder cfg input r) (calls log) ∧
      app1.rot0 = (if input.KeyPressed Key.LButton
        then app.rot0 + (input.GetMouseMotion.x : ℚ) * 0.005 else app.rot0) ∧
      app1.rot1 = (if input.KeyPressed Key.RButton
        then app.rot1 + (input.GetMouseMotion.x : ℚ) * 0.005 else app.rot1) ∧
      (uploads log).map Settings.wvpMatrix =
        [if base.IsOpenGL
          then gs.FlipAxis (modelTransform gs app.renderTargetProj app1.rot1 ⟨1, 1, 1⟩) 1
          else modelTransform gs app.renderTargetProj app1.rot1 ⟨1, 1, 1⟩,
         modelTransform gs base.projection app1.rot0 ⟨0, 1, 0⟩] := by
  exact ⟨_, _, OnDrawFrame_eq cfg gs base input app r h,
    orderedCalls_frame cfg gs base input app r, drawTargets_frame cfg gs base input app r,
    frameOrder_sublist cfg gs base input app r, rfl, rfl,
    uploads_frame cfg gs base input app r⟩

/-- A concrete frame of the default build on which the order of the calls holds. -/
theorem frame_call_order_witness :
    demoApp.Holds demoResources ∧
    ∃ app1 log, OnDrawFrame defaultBuild exprGs demoBase demoInput demoApp
        = Except.ok ((), app1, log) ∧
      orderedCalls log =
        [Call.KeyPressed Key.LButton] ++
        (if demoInput.KeyPressed Key.LButton then [Call.GetMouseMotion] else []) ++
        [Call.KeyPressed Key.RButton] ++
        (if demoInput.KeyPressed Key.RButton then [Call.GetMouseMotion] else []) ++
        [Call.SetRenderTarget demoResources.renderTarget,
         Call.SetTexture demoResources.colorMap 0 shaderStages,
         Call.DrawIndexed 36 0,
         Call.UnsetRenderTarget,
         Call.GenerateMips demoResources.renderTargetTex,
         Call.SetTexture demoResources.renderTargetTex
           (if defaultBuild.customMultisampling then 1 else 0) shaderStages,
         Call.DrawIndexed 36 0,
         Call.Present,
         Call.KeyDown Key.Return] ++
        (if demoInput.KeyDown Key.Return then
          [Call.SaveTexture demoResources.renderTargetTex "RenderTargetTexture.png"]
         else []) ∧
      (∀ c : ContextState, (drawStates c (calls log)).map DrawState.renderTarget =
        [some demoResources.renderTarget, none]) ∧
      List.Sublist (frameOrder defaultBuild demoInput demoResources) (calls log) ∧
      app1.rot0 = (if demoInput.KeyPressed Key.LButton
        then demoApp.rot0 + (demoInput.GetMouseMotion.x : ℚ) * 0.005 else demoApp.rot0) ∧
      app1.rot1 = (if demoInput.KeyPressed Key.RButton
        then demoApp.rot1 + (demoInput.GetMouseMotion.x : ℚ) * 0.005 else demoApp.rot1) ∧
      (uploads log).map Settings.wvpMatrix =
        [if demoBase.IsOpenGL
          then exprGs.FlipAxis
            (modelTransform exprGs demoApp.renderTargetProj app1.rot1 ⟨1, 1, 1⟩) 1
          else modelTransform exprGs demoApp.renderTargetProj app1.rot1 ⟨1, 1, 1⟩,
         modelTransform exprGs demoBase.projection app1.rot0 ⟨0, 1, 0⟩] :=
  ⟨demoApp_holds,
   frame_call_order defaultBuild exprGs demoBase demoInput demoApp demoResources demoApp_holds⟩

/-- C2: every frame returns, and after it `rot0` is `rot0 + 0.005*dx` if the left button
is pressed and unchanged otherwise, `rot1` is `rot1 + 0.005*dx` if the right button is
pressed and unchanged otherwise, where `dx` is the horizontal mouse motion; so `rot1` does
not depend on the left button, `rot0` not on the right button, and with neither button
pressed both are unchanged. -/
theorem rotation_angles_update (cfg : BuildConfig) (gs : GsLib Mat Dir Rad)
    (base : Tutorial Mat) (input : Input) (app : App Mat) (r : Resources)
    (h : app.Holds r) :
    ∃ app1 log, OnDrawFrame cfg gs base input app = Except.ok ((), app1, log) ∧
      app1.rot0 = (if input.KeyPressed Key.LButton
        then app.rot0 + 0.005 * (input.GetMouseMotion.x : ℚ) else app.rot0) ∧
      app1.rot1 = (if input.KeyPressed Key.RButton
        then app.rot1 + 0.005 * (input.GetMouseMotion.x : ℚ) else app.rot1) ∧
      (input.KeyPressed Key.LButton = false → app1.rot0 = app.rot0) ∧
      (input.KeyPressed Key.RButton = false → app1.rot1 = app.rot1) ∧
      (input.KeyPressed Key.LButton = false → input.KeyPressed Key.RButton = false →
        app1.rot0 = app.rot0 ∧ app1.rot1 = app.rot1) := by
  refine ⟨_, _, OnDrawFrame_eq cfg gs base input app r h, ?_⟩
  simp only [frameApp, nextRot0, nextRot1]
  refine ⟨?_, ?_, ?_, ?_, ?_⟩
  · rw [mul_comm]
  · rw [mul_comm]
  · intro hl
    simp [hl]
  · intro hr
    simp [hr]
  · intro hl hr
    simp [hl, hr]

/-- A concrete frame with the left button held on which the update of the angles holds. -/
theorem rotation_angles_update_witness :
    demoApp.Holds demoResources ∧
    ∃ app1 log, OnDrawFrame defaultBuild exprGs demoBase demoInput demoApp
        = Except.ok ((), app1, log) ∧
      app1.rot0 = (if demoInput.KeyPressed Key.LButton
        then demoApp.rot0 + 0.005 * (demoInput.GetMouseMotion.x : ℚ) else demoApp.rot0) ∧
      app1.rot1 = (if demoInput.KeyPressed Key.RButton
        then demoApp.rot1 + 0.005 * (demoInput.GetMouseMotion.x : ℚ) else demoApp.rot1) ∧
      (demoInput.KeyPressed Key.LButton = false → app1.rot0 = demoApp.rot0) ∧
      (demoInput.KeyPressed Key.RButton = false → app1.rot1 = demoApp.rot1) ∧
      (demoInput.KeyPressed Key.LButton = false → demoInput.KeyPressed Key.RButton = false →
        app1.rot0 = demoApp.rot0 ∧ app1.rot1 = demoApp.rot1) :=
  ⟨demoApp_holds,
   rotation_angles_update defaultBuild exprGs demoBase demoInput demoApp demoResources
     demoApp_holds⟩

/-- C3: every frame returns, and its log has exactly two `DrawIndexed`, each right after
an `UpdateBuffer(constantBuffer, settings)` and with `settings` still as uploaded; the
first is made while the render target is set and its upload holds the matrix that
`UpdateModelTransform` builds from `renderTargetProj`, the right-button angle `rot1` and
the axis (1,1,1) (flipped when `IsOpenGL()`), the second is made after
`UnsetRenderTarget` and its upload holds the matrix built from the screen projection, the
left-button angle `rot0` and the axis (0,1,0); the first matrix is the same for every
value of `rot0` and the second for every value of `rot1`. -/
theorem cube_rotation_sources (cfg : BuildConfig) (gs : GsLib Mat Dir Rad)
    (base : Tutorial Mat) (input : Input) (app : App Mat) (r : Resources)
    (h : app.Holds r) :
    ∃ app1 pre s1 mid s2 post,
      OnDrawFrame cfg gs base input app = Except.ok ((), app1,
        pre ++ [⟨Call.UpdateBuffer r.constantBuffer s1, s1⟩, ⟨Call.DrawIndexed 36 0, s1⟩] ++
        mid ++ [⟨Call.UpdateBuffer r.constantBuffer s2, s2⟩, ⟨Call.DrawIndexed 36 0, s2⟩] ++
        post) ∧
      (∀ e ∈ pre ++ mid ++ post, e.call.isDrawIndexed = false) ∧
      Call.SetRenderTarget r.renderTarget ∈ calls pre ∧
      (∀ e ∈ pre, e.call.isUnsetRenderTarget = false) ∧
      Call.UnsetRenderTarget ∈ calls mid ∧
      (∀ e ∈ mid, e.call.isSetRenderTarget = false) ∧
      app1.rot0 = (if input.KeyPressed Key.LButton
        then app.rot0 + (input.GetMouseMotion.x : ℚ) * 0.005 else app.rot0) ∧
      app1.rot1 = (if input.KeyPressed Key.RButton
        then app.rot1 + (input.GetMouseMotion.x : ℚ) * 0.005 else app.rot1) ∧
      (∀ (p : Mat) (rot : ℚ) (axis : Vector3 ℚ) (a : App Mat),
        UpdateModelTransform gs p rot axis a = Except.ok ((),
          { a with settings := { a.settings with wvpMatrix := modelTransform gs p rot axis } },
          [])) ∧
      s1.wvpMatrix = (if base.IsOpenGL
        then gs.FlipAxis (modelTransform gs app.renderTargetProj app1.rot1 ⟨1, 1, 1⟩) 1
        else modelTransform gs app.renderTargetProj app1.rot1 ⟨1, 1, 1⟩) ∧
      s2.wvpMatrix = modelTransform gs base.projection app1.rot0 ⟨0, 1, 0⟩ ∧
      (∀ x : ℚ, ∃ app2 log2 t, OnDrawFrame cfg gs base input { app with rot0 := x }
          = Except.ok ((), app2, log2) ∧
        (uploads log2).map Settings.wvpMatrix = [s1.wvpMatrix, t]) ∧
      (∀ y : ℚ, ∃ app2 log2 t, OnDrawFrame cfg gs base input { app with rot1 := y }
          = Except.ok ((), app2, log2) ∧
        (uploads log2).map Settings.wvpMatrix = [t, s2.wvpMatrix]) := by
  refine ⟨frameApp cfg gs base input app,
    entries app.settings (targetSetupCalls cfg base input r),
    targetSettings cfg gs base input app,
    entries (targetSettings cfg gs base input app)
      ((targetDrawCalls cfg base r (targetSettings cfg gs base input app)).drop 2),
    screenSettings cfg gs base input app,
    entries (screenSettings cfg gs base input app)
      ((screenDrawCalls input r (screenSettings cfg gs base input app)).drop 2),
    ?_, ?_, ?_, ?_, ?_, ?_, rfl, rfl, ?_, rfl, rfl, ?_, ?_⟩
  · rw [OnDrawFrame_eq cfg gs base input app r h]
    simp [frameLog, entries, targetDrawCalls, screenDrawCalls]
  · apply forall_false_of_all
    obtain ⟨pr, dcc, gl, res, gv, gi⟩ := base
    unfold entries targetSetupCalls targetDrawCalls screenDrawCalls
    generalize input.KeyPressed Key.LButton = kl
    generalize input.KeyPressed Key.RButton = kr
    generalize input.KeyDown Key.Return = kd
    cases gl <;> cases kl <;> cases kr <;> cases kd <;> rfl
  · simp [calls, entries, targetSetupCalls]
  · apply forall_false_of_all
    obtain ⟨pr, dcc, gl, res, gv, gi⟩ := base
    unfold entries targetSetupCalls
    generalize input.KeyPressed Key.LButton = kl
    generalize input.KeyPressed Key.RButton = kr
    cases gl <;> cases kl <;> cases kr <;> rfl
  · simp [calls, entries, targetDrawCalls]
  · apply forall_false_of_all
    obtain ⟨pr, dcc, gl, res, gv, gi⟩ := base
    unfold entries targetDrawCalls
    cases gl <;> rfl
  · intro p rot axis a
    rfl
  · intro x
    refine ⟨_, _, (screenSettings cfg gs base input { app with rot0 := x }).wvpMatrix,
      OnDrawFrame_eq cfg gs base input { app with rot0 := x } r h, ?_⟩
    obtain ⟨pr, dcc, gl, res, gv, gi⟩ := base
    unfold uploads frameLog entries targetSetupCalls targetDrawCalls screenDrawCalls
      targetSettings screenSettings nextRot0 nextRot1
    generalize input.KeyPressed Key.LButton = kl
    generalize input.KeyPressed Key.RButton = kr
    generalize input.KeyDown Key.Return = kd
    cases gl <;> cases kl <;> cases kr <;> cases kd <;> rfl
  · intro y
    refine ⟨_, _, (targetSettings cfg gs base input { app with rot1 := y }).wvpMatrix,
      OnDrawFrame_eq cfg gs base input { app with rot1 := y } r h, ?_⟩
    obtain ⟨pr, dcc, gl, res, gv, gi⟩ := base
    unfold uploads frameLog entries targetSetupCalls targetDrawCalls screenDrawCalls
      targetSettings screenSettings nextRot0 nextRot1
    generalize input.KeyPressed Key.LButton = kl
    generalize input.KeyPressed Key.RButton = kr
    generalize input.KeyDown Key.Return = kd
    cases gl <;> cases kl <;> cases kr <;> cases kd <;> simp

/-- A concrete frame on which the sources of the two uploaded matrices are as stated. -/
theorem cube_rotation_sources_witness :
    demoApp.Holds demoResources ∧
    ∃ app1 pre s1 mid s2 post,
      OnDrawFrame defaultBuild exprGs demoBase demoInput demoApp = Except.ok ((), app1,
        pre ++ [⟨Call.UpdateBuffer demoResources.constantBuffer s1, s1⟩,
          ⟨Call.DrawIndexed 36 0, s1⟩] ++
        mid ++ [⟨Call.UpdateBuffer demoResources.constantBuffer s2, s2⟩,
          ⟨Call.DrawIndexed 36 0, s2⟩] ++
        post) ∧
      (∀ e ∈ pre ++ mid ++ post, e.call.isDrawIndexed = false) ∧
      Call.SetRenderTarget demoResources.renderTarget ∈ calls pre ∧
      (∀ e ∈ pre, e.call.isUnsetRenderTarget = false) ∧
      Call.UnsetRenderTarget ∈ calls mid ∧
      (∀ e ∈ mid, e.call.isSetRenderTarget = false) ∧
      app1.rot0 = (if demoInput.KeyPressed Key.LButton
        then demoApp.rot0 + (demoInput.GetMouseMotion.x : ℚ) * 0.005 else demoApp.rot0) ∧
      app1.rot1 = (if demoInput.KeyPressed Key.RButton
        then demoApp.rot1 + (demoInput.GetMouseMotion.x : ℚ) * 0.005 else demoApp.rot1) ∧
      (∀ (p : MatExpr) (rot : ℚ) (axis : Vector3 ℚ) (a : App MatExpr),
        UpdateModelTransform exprGs p rot axis a = Except.ok ((),
          { a with
            settings := { a.settings with wvpMatrix := modelTransform exprGs p rot axis } },
          [])) ∧
      s1.wvpMatrix = (if demoBase.IsOpenGL
        then exprGs.FlipAxis
          (modelTransform exprGs demoApp.renderTargetProj app1.rot1 ⟨1, 1, 1⟩) 1
        else modelTransform exprGs demoApp.renderTargetProj app1.rot1 ⟨1, 1, 1⟩) ∧
      s2.wvpMatrix = modelTransform exprGs demoBase.projection app1.rot0 ⟨0, 1, 0⟩ ∧
      (∀ x : ℚ, ∃ app2 log2 t,
        OnDrawFrame defaultBuild exprGs demoBase demoInput { demoApp with rot0 := x }
          = Except.ok ((), app2, log2) ∧
        (uploads log2).map Settings.wvpMatrix = [s1.wvpMatrix, t]) ∧
      (∀ y : ℚ, ∃ app2 log2 t,
        OnDrawFrame defaultBuild exprGs demoBase demoInput { demoApp with rot1 := y }
          = Except.ok ((), app2, log2) ∧
        (uploads log2).map Settings.wvpMatrix = [t, s2.wvpMatrix]) :=
  ⟨demoApp_holds,
   cube_rotation_sources defaultBuild exprGs demoBase demoInput demoApp demoResources
     demoApp_holds⟩

/-- C4: for the same object and input, the frame on an OpenGL renderer and the frame on
another renderer both return; on OpenGL the calls that set the API dependent state,
change the render target, upload or draw are `SetGraphicsAPIDependentState` with
`invertFrontFace = true`, `SetRenderTarget`, the upload of `FlipAxis(M, 1)`, `DrawIndexed`,
`UnsetRenderTarget`, `SetGraphicsAPIDependentState` with the default state, the second
upload, `DrawIndexed`; on another renderer they are the same without the two
`SetGraphicsAPIDependentState` and with the upload of `M` itself; `M` is the unflipped
model transform, and the second upload holds the same matrix in both. -/
theorem y_flip_only_on_opengl (cfg : BuildConfig) (gs : GsLib Mat Dir Rad)
    (base : Tutorial Mat) (input : Input) (app : App Mat) (r : Resources)
    (h : app.Holds r) :
    ∃ appT logT appF logF sT1 sT2 sF1 sF2,
      OnDrawFrame cfg gs { base with IsOpenGL := true } input app
        = Except.ok ((), appT, logT) ∧
      OnDrawFrame cfg gs { base with IsOpenGL := false } input app
        = Except.ok ((), appF, logF) ∧
      stateAndDrawCalls logT =
        [Call.SetGraphicsAPIDependentState ⟨true⟩, Call.SetRenderTarget r.renderTarget,
         Call.UpdateBuffer r.constantBuffer sT1, Call.DrawIndexed 36 0,
         Call.UnsetRenderTarget,
         Call.SetGraphicsAPIDependentState GraphicsAPIDependentStateDescriptor.default,
         Call.UpdateBuffer r.constantBuffer sT2, Call.DrawIndexed 36 0] ∧
      stateAndDrawCalls logF =
        [Call.SetRenderTarget r.renderTarget,
         Call.UpdateBuffer r.constantBuffer sF1, Call.DrawIndexed 36 0,
         Call.UnsetRenderTarget,
         Call.UpdateBuffer r.constantBuffer sF2, Call.DrawIndexed 36 0] ∧
      appT.rot0 = appF.rot0 ∧ appT.rot1 = appF.rot1 ∧
      sT1.wvpMatrix = gs.FlipAxis (modelTransform gs app.renderTargetProj appF.rot1 ⟨1, 1, 1⟩) 1 ∧
      sF1.wvpMatrix = modelTransform gs app.renderTargetProj appF.rot1 ⟨1, 1, 1⟩ ∧
      sT2.wvpMatrix = modelTransform gs base.projection appF.rot0 ⟨0, 1, 0⟩ ∧
      sF2.wvpMatrix = sT2.wvpMatrix ∧
      GraphicsAPIDependentStateDescriptor.default = ⟨false⟩ := by
  refine ⟨_, _, _, _,
    targetSettings cfg gs { base with IsOpenGL := true } input app,
    screenSettings cfg gs { base with IsOpenGL := true } input app,
    targetSettings cfg gs { base with IsOpenGL := false } input app,
    screenSettings cfg gs { base with IsOpenGL := false } input app,
    OnDrawFrame_eq cfg gs { base with IsOpenGL := true } input app r h,
    OnDrawFrame_eq cfg gs { base with IsOpenGL := false } input app r h,
    ?_, ?_, rfl, rfl, rfl, rfl, rfl, rfl, rfl⟩
  · unfold stateAndDrawCalls calls frameLog entries targetSetupCalls targetDrawCalls
      screenDrawCalls
    generalize input.KeyPressed Key.LButton = kl
    generalize input.KeyPressed Key.RButton = kr
    generalize input.KeyDown Key.Return = kd
    cases kl <;> cases kr <;> cases kd <;> rfl
  · unfold stateAndDrawCalls calls frameLog entries targetSetupCalls targetDrawCalls
      screenDrawCalls
    generalize input.KeyPressed Key.LButton = kl
    generalize input.KeyPressed Key.RButton = kr
    generalize input.KeyDown Key.Return = kd
    cases kl <;> cases kr <;> cases kd <;> rfl

/-- A concrete object and input on which the frames with and without OpenGL compare as stated. -/
theorem y_flip_only_on_opengl_witness :
    demoApp.Holds demoResources ∧
    ∃ appT logT appF logF sT1 sT2 sF1 sF2,
      OnDrawFrame defaultBuild exprGs { demoBase with IsOpenGL := true } demoInput demoApp
        = Except.ok ((), appT, logT) ∧
      OnDrawFrame defaultBuild exprGs { demoBase with IsOpenGL := false } demoInput demoApp
        = Except.ok ((), appF, logF) ∧
      stateAndDrawCalls logT =
        [Call.SetGraphicsAPIDependentState ⟨true⟩,
         Call.SetRenderTarget demoResources.renderTarget,
         Call.UpdateBuffer demoResources.constantBuffer sT1, Call.DrawIndexed 36 0,
         Call.UnsetRenderTarget,
         Call.SetGraphicsAPIDependentState GraphicsAPIDependentStateDescriptor.default,
         Call.UpdateBuffer demoResources.constantBuffer sT2, Call.DrawIndexed 36 0] ∧
      stateAndDrawCalls logF =
        [Call.SetRenderTarget demoResources.renderTarget,
         Call.UpdateBuffer demoResources.constantBuffer sF1, Call.DrawIndexed 36 0,
         Call.UnsetRenderTarget,
         Call.UpdateBuffer demoResources.constantBuffer sF2, Call.DrawIndexed 36 0] ∧
      appT.rot0 = appF.rot0 ∧ appT.rot1 = appF.rot1 ∧
      sT1.wvpMatrix =
        exprGs.FlipAxis (modelTransform exprGs demoApp.renderTargetProj appF.rot1 ⟨1, 1, 1⟩) 1 ∧
      sF1.wvpMatrix = modelTransform exprGs demoApp.renderTargetProj appF.rot1 ⟨1, 1, 1⟩ ∧
      sT2.wvpMatrix = modelTransform exprGs demoBase.projection appF.rot0 ⟨0, 1, 0⟩ ∧
      sF2.wvpMatrix = sT2.wvpMatrix ∧
      GraphicsAPIDependentStateDescriptor.default = ⟨false⟩ :=
  ⟨demoApp_holds,
   y_flip_only_on_opengl defaultBuild exprGs demoBase demoInput demoApp demoResources
     demoApp_holds⟩

/-- C5: the constructor creates the render-target texture with the width and height of
`renderTargetSize` and attaches a depth buffer of that size; in every frame the calls
that change the render target, set the viewport, clear or draw are `SetRenderTarget`,
`SetViewport` with (0, 0, W, H) for (W, H) = `renderTargetSize`, `ClearBuffers` of colour
and depth, `DrawIndexed`, `UnsetRenderTarget`, and then the viewport, clear and draw of the
screen; `renderTargetSize` is 512 x 512 in the default build. -/
theorem render_target_viewport (cfg : BuildConfig) (gs : GsLib Mat Dir Rad)
    (base : Tutorial Mat) (rs : RenderSystem) (input : Input) (app : App Mat)
    (r : Resources) (hrs : rs.Provides r) (h : app.Holds r) :
    (∃ app0 initLog, construct cfg gs base rs (App.init gs) = Except.ok ((), app0, initLog) ∧
      app0.renderTargetTex = some r.renderTargetTex ∧
      (cfg.customMultisampling = false →
        Call.CreateTexture (TextureDescriptor.Texture2DDesc TextureFormat.RGBA
          (renderTargetSize cfg).x (renderTargetSize cfg).y) ∈ calls initLog) ∧
      (cfg.customMultisampling = true →
        Call.CreateTexture (TextureDescriptor.Texture2DMSDesc TextureFormat.RGBA
          (renderTargetSize cfg).x (renderTargetSize cfg).y 8) ∈ calls initLog) ∧
      Call.AttachDepthBuffer r.renderTarget (renderTargetSize cfg) ∈ calls initLog ∧
      Call.AttachTexture r.renderTarget r.renderTargetTex ∈ calls initLog) ∧
    (∃ app1 log, OnDrawFrame cfg gs base input app = Except.ok ((), app1, log) ∧
      viewportAndDrawCalls log =
        [Call.SetRenderTarget r.renderTarget,
         Call.SetViewport ⟨0, 0, ((renderTargetSize cfg).x : ℚ), ((renderTargetSize cfg).y : ℚ)⟩,
         Call.ClearBuffers [ClearBuffer.Color, ClearBuffer.Depth],
         Call.DrawIndexed 36 0,
         Call.UnsetRenderTarget,
         Call.SetViewport ⟨0, 0, (base.resolution.x : ℚ), (base.resolution.y : ℚ)⟩,
         Call.ClearBuffers [ClearBuffer.Color, ClearBuffer.Depth],
         Call.DrawIndexed 36 0]) ∧
    renderTargetSize defaultBuild = ⟨512, 512⟩ := by
  refine ⟨⟨_, _, construct_eq cfg gs base rs r hrs, rfl, ?_, ?_, ?_, ?_⟩,
    ⟨_, _, OnDrawFrame_eq cfg gs base input app r h, ?_⟩, rfl⟩
  · intro hc
    simp [calls, entries, constructCalls, createRenderTargetCalls, createBuffersCalls, hc]
  · intro hc
    obtain ⟨ms, cms⟩ := cfg
    cases ms <;> cases cms <;> simp [BuildConfig.customMultisampling] at hc
    simp [calls, entries, constructCalls, createRenderTargetCalls, createBuffersCalls,
      BuildConfig.customMultisampling]
  · simp [calls, entries, constructCalls, createRenderTargetCalls, createBuffersCalls]
  · simp [calls, entries, constructCalls, createRenderTargetCalls, createBuffersCalls]
  · obtain ⟨pr, dcc, gl, res, gv, gi⟩ := base
    unfold viewportAndDrawCalls calls frameLog entries targetSetupCalls targetDrawCalls
      screenDrawCalls
    generalize input.KeyPressed Key.LButton = kl
    generalize input.KeyPressed Key.RButton = kr
    generalize input.KeyDown Key.Return = kd
    cases gl <;> cases kl <;> cases kr <;> cases kd <;> rfl

/-- A concrete render system and frame in which viewport and texture have the size 512 x 512. -/
theorem render_target_viewport_witness :
    demoRenderSystem.Provides demoResources ∧ demoApp.Holds demoResources ∧
    (∃ app0 initLog, construct defaultBuild exprGs demoBase demoRenderSystem (App.init exprGs)
        = Except.ok ((), app0, initLog) ∧
      app0.renderTargetTex = some demoResources.renderTargetTex ∧
      (defaultBuild.customMultisampling = false →
        Call.CreateTexture (TextureDescriptor.Texture2DDesc TextureFormat.RGBA
          (renderTargetSize defaultBuild).x (renderTargetSize defaultBuild).y)
          ∈ calls initLog) ∧
      (defaultBuild.customMultisampling = true →
        Call.CreateTexture (TextureDescriptor.Texture2DMSDesc TextureFormat.RGBA
          (renderTargetSize defaultBuild).x (renderTargetSize defaultBuild).y 8)
          ∈ calls initLog) ∧
      Call.AttachDepthBuffer demoResources.renderTarget (renderTargetSize defaultBuild)
        ∈ calls initLog ∧
      Call.AttachTexture demoResources.renderTarget demoResources.renderTargetTex
        ∈ calls initLog) ∧
    (∃ app1 log, OnDrawFrame defaultBuild exprGs demoBase demoInput demoApp
        = Except.ok ((), app1, log) ∧
      viewportAndDrawCalls log =
        [Call.SetRenderTarget demoResources.renderTarget,
         Call.SetViewport ⟨0, 0, ((renderTargetSize defaultBuild).x : ℚ),
           ((renderTargetSize defaultBuild).y : ℚ)⟩,
         Call.ClearBuffers [ClearBuffer.Color, ClearBuffer.Depth],
         Call.DrawIndexed 36 0,
         Call.UnsetRenderTarget,
         Call.SetViewport ⟨0, 0, (demoBase.resolution.x : ℚ), (demoBase.resolution.y : ℚ)⟩,
         Call.ClearBuffers [ClearBuffer.Color, ClearBuffer.Depth],
         Call.DrawIndexed 36 0]) ∧
    renderTargetSize defaultBuild = ⟨512, 512⟩ :=
  ⟨demoRenderSystem_provides, demoApp_holds,
   render_target_viewport defaultBuild exprGs demoBase demoRenderSystem demoInput demoApp
     demoResources demoRenderSystem_provides demoApp_holds⟩

/-- C6: every frame returns, and the calls of the frame that draw, present, read a key
state or save a texture are the two `DrawIndexed`, `Present`, `KeyDown(Key::Return)` and
then, exactly when Return is down,
one `SaveTexture(renderTargetTex, "RenderTargetTexture.png")`; so the save is made if and
only if Return is down, at most once, after `Present`, and never with the colour map when
that is another texture. -/
theorem save_texture_on_return (cfg : BuildConfig) (gs : GsLib Mat Dir Rad)
    (base : Tutorial Mat) (input : Input) (app : App Mat) (r : Resources)
    (h : app.Holds r) :
    ∃ app1 log, OnDrawFrame cfg gs base input app = Except.ok ((), app1, log) ∧
      presentAndSaveCalls log =
        [Call.DrawIndexed 36 0, Call.DrawIndexed 36 0, Call.Present,
         Call.KeyDown Key.Return] ++
        (if input.KeyDown Key.Return then
          [Call.SaveTexture r.renderTargetTex "RenderTargetTexture.png"] else []) ∧
      (Call.SaveTexture r.renderTargetTex "RenderTargetTexture.png" ∈ calls log ↔
        input.KeyDown Key.Return = true) ∧
      (input.KeyDown Key.Return = false → ∀ t f, Call.SaveTexture t f ∉ calls log) ∧
      (r.colorMap ≠ r.renderTargetTex → ∀ f, Call.SaveTexture r.colorMap f ∉ calls log) := by
  have hproj : presentAndSaveCalls (frameLog cfg gs base input app r) =
      [Call.DrawIndexed 36 0, Call.DrawIndexed 36 0, Call.Present,
       Call.KeyDown Key.Return] ++
      (if input.KeyDown Key.Return then
        [Call.SaveTexture r.renderTargetTex "RenderTargetTexture.png"] else []) := by
    obtain ⟨pr, dcc, gl, res, gv, gi⟩ := base
    unfold presentAndSaveCalls calls frameLog entries targetSetupCalls targetDrawCalls
      screenDrawCalls
    generalize input.KeyPressed Key.LButton = kl
    generalize input.KeyPressed Key.RButton = kr
    generalize input.KeyDown Key.Return = kd
    cases gl <;> cases kl <;> cases kr <;> cases kd <;> rfl
  have hmem : ∀ t f, Call.SaveTexture t f ∈ calls (frameLog cfg gs base input app r) →
      input.KeyDown Key.Return = true ∧ t = r.renderTargetTex := by
    intro t f hin
    have h1 : Call.SaveTexture t f ∈ presentAndSaveCalls (frameLog cfg gs base input app r) :=
      List.mem_filter.mpr ⟨hin, rfl⟩
    rw [hproj] at h1
    cases hk : input.KeyDown Key.Return
    · simp [hk] at h1
    · simp [hk] at h1
      exact ⟨rfl, h1.1⟩
  refine ⟨_, _, OnDrawFrame_eq cfg gs base input app r h, hproj, ?_, ?_, ?_⟩
  · constructor
    · intro hin
      exact (hmem _ _ hin).1
    · intro hk
      have h1 : Call.SaveTexture r.renderTargetTex "RenderTargetTexture.png" ∈
          presentAndSaveCalls (frameLog cfg gs base input app r) := by
        rw [hproj]
        simp [hk]
      exact (List.mem_filter.mp h1).1
  · intro hk t f hin
    have h1 := (hmem t f hin).1
    rw [hk] at h1
    exact Bool.false_ne_true h1
  · intro hne f hin
    exact hne (hmem _ f hin).2

/-- A concrete frame with Return down in which the texture is saved once. -/
theorem save_texture_on_return_witness :
    demoApp.Holds demoResources ∧
    ∃ app1 log, OnDrawFrame defaultBuild exprGs demoBase demoInput demoApp
        = Except.ok ((), app1, log) ∧
      presentAndSaveCalls log =
        [Call.DrawIndexed 36 0, Call.DrawIndexed 36 0, Call.Present,
         Call.KeyDown Key.Return] ++
        (if demoInput.KeyDown Key.Return then
          [Call.SaveTexture demoResources.renderTargetTex "RenderTargetTexture.png"]
         else []) ∧
      (Call.SaveTexture demoResources.renderTargetTex "RenderTargetTexture.png" ∈ calls log ↔
        demoInput.KeyDown Key.Return = true) ∧
      (demoInput.KeyDown Key.Return = false → ∀ t f, Call.SaveTexture t f ∉ calls log) ∧
      (demoResources.colorMap ≠ demoResources.renderTargetTex →
        ∀ f, Call.SaveTexture demoResources.colorMap f ∉ calls log) :=
  ⟨demoApp_holds,
   save_texture_on_return defaultBuild exprGs demoBase demoInput demoApp demoResources
     demoApp_holds⟩

/-- C7: when every creation call returns a non-null pointer, the constructor returns
without a null dereference and leaves every pointer member non-null; the pipeline
descriptor it passes to `CreateGraphicsPipeline` holds the shader program just loaded;
`GenerateMips`, `AttachDepthBuffer` and `AttachTexture` are called on the render target
and texture just created; and every sequence of frames after the constructor returns
without a null dereference, while a frame on the object before construction would hit
one. -/
theorem resources_created_before_use (cfg : BuildConfig) (gs : GsLib Mat Dir Rad)
    (base : Tutorial Mat) (rs : RenderSystem) (r : Resources) (hrs : rs.Provides r) :
    ∃ app0 initLog, construct cfg gs base rs (App.init gs) = Except.ok ((), app0, initLog) ∧
      app0.Holds r ∧
      (∃ desc tex, desc.shaderProgram = some r.shaderProgram ∧
        List.Sublist
          [Call.LoadStandardShaderProgram cubeVertexFormat,
           Call.CreateGraphicsPipeline desc,
           Call.CreateRenderTarget (if cfg.ENABLE_MULTISAMPLING then 8 else 0),
           Call.CreateTexture tex,
           Call.GenerateMips r.renderTargetTex,
           Call.AttachDepthBuffer r.renderTarget (renderTargetSize cfg),
           Call.AttachTexture r.renderTarget r.renderTargetTex] (calls initLog)) ∧
      (∀ inputs : List Input, ∃ app1 log,
        runFrames cfg gs base inputs app0 = Except.ok ((), app1, log) ∧ app1.Holds r) ∧
      (∀ input : Input,
        OnDrawFrame cfg gs base input (App.init gs) = Except.error Err.nullDereference) := by
  refine ⟨_, _, construct_eq cfg gs base rs r hrs, constructedApp_holds gs r, ?_, ?_, ?_⟩
  · refine ⟨⟨some r.shaderProgram, true, true, CullMode.Back, cfg.ENABLE_MULTISAMPLING⟩,
      (if cfg.customMultisampling then
        TextureDescriptor.Texture2DMSDesc TextureFormat.RGBA (renderTargetSize cfg).x
          (renderTargetSize cfg).y (if cfg.ENABLE_MULTISAMPLING then 8 else 0)
      else
        TextureDescriptor.Texture2DDesc TextureFormat.RGBA (renderTargetSize cfg).x
          (renderTargetSize cfg).y), rfl, ?_⟩
    unfold calls entries constructCalls createBuffersCalls createRenderTargetCalls
    simp only [List.map_append, List.map_cons, List.map_nil, List.cons_append,
      List.nil_append]
    repeat (first | apply List.Sublist.cons₂ | apply List.Sublist.cons)
    exact List.Sublist.slnil
  · intro inputs
    obtain ⟨app1, log, hrun, hholds, -⟩ :=
      runFrames_eq cfg gs base r inputs (constructedApp gs r) (constructedApp_holds gs r)
    exact ⟨app1, log, hrun, hholds⟩
  · intro input
    unfold OnDrawFrame
    generalize input.KeyPressed Key.LButton = kl
    generalize input.KeyPressed Key.RButton = kr
    cases kl <;> cases kr <;> rfl

/-- A concrete render system with non-null results for which construction and frames succeed. -/
theorem resources_created_before_use_witness :
    demoRenderSystem.Provides demoResources ∧
    ∃ app0 initLog, construct defaultBuild exprGs demoBase demoRenderSystem (App.init exprGs)
        = Except.ok ((), app0, initLog) ∧
      app0.Holds demoResources ∧
      (∃ desc tex, desc.shaderProgram = some demoResources.shaderProgram ∧
        List.Sublist
          [Call.LoadStandardShaderProgram cubeVertexFormat,
           Call.CreateGraphicsPipeline desc,
           Call.CreateRenderTarget (if defaultBuild.ENABLE_MULTISAMPLING then 8 else 0),
           Call.CreateTexture tex,
           Call.GenerateMips demoResources.renderTargetTex,
           Call.AttachDepthBuffer demoResources.renderTarget (renderTargetSize defaultBuild),
           Call.AttachTexture demoResources.renderTarget demoResources.renderTargetTex]
          (calls initLog)) ∧
      (∀ inputs : List Input, ∃ app1 log,
        runFrames defaultBuild exprGs demoBase inputs app0 = Except.ok ((), app1, log) ∧
        app1.Holds demoResources) ∧
      (∀ input : Input,
        OnDrawFrame defaultBuild exprGs demoBase input (App.init exprGs)
          = Except.error Err.nullDereference) :=
  ⟨demoRenderSystem_provides,
   resources_created_before_use defaultBuild exprGs demoBase demoRenderSystem demoResources
     demoRenderSystem_provides⟩

/-- C8: every frame returns, and the calls of the frame that change the render target,
bind a texture, generate mip levels or draw are, in this order: `SetRenderTarget`,
`SetTexture(colorMap)`, `DrawIndexed`, `UnsetRenderTarget`, one
`GenerateMips(renderTargetTex)`, `SetTexture(renderTargetTex)`, `DrawIndexed`. -/
theorem mips_regenerated_after_target_draw (cfg : BuildConfig) (gs : GsLib Mat Dir Rad)
    (base : Tutorial Mat) (input : Input) (app : App Mat) (r : Resources)
    (h : app.Holds r) :
    ∃ app1 log, OnDrawFrame cfg gs base input app = Except.ok ((), app1, log) ∧
      mipsAndDrawCalls log =
        [Call.SetRenderTarget r.renderTarget, Call.SetTexture r.colorMap 0 shaderStages,
         Call.DrawIndexed 36 0, Call.UnsetRenderTarget,
         Call.GenerateMips r.renderTargetTex,
         Call.SetTexture r.renderTargetTex (if cfg.customMultisampling then 1 else 0)
           shaderStages,
         Call.DrawIndexed 36 0] := by
  refine ⟨_, _, OnDrawFrame_eq cfg gs base input app r h, ?_⟩
  obtain ⟨pr, dcc, gl, res, gv, gi⟩ := base
  unfold mipsAndDrawCalls calls frameLog entries targetSetupCalls targetDrawCalls
    screenDrawCalls
  generalize input.KeyPressed Key.LButton = kl
  generalize input.KeyPressed Key.RButton = kr
  generalize input.KeyDown Key.Return = kd
  cases gl <;> cases kl <;> cases kr <;> cases kd <;> rfl

/-- A concrete frame in which the mip levels are regenerated between the two draws. -/
theorem mips_regenerated_after_target_draw_witness :
    demoApp.Holds demoResources ∧
    ∃ app1 log, OnDrawFrame defaultBuild exprGs demoBase demoInput demoApp
        = Except.ok ((), app1, log) ∧
      mipsAndDrawCalls log =
        [Call.SetRenderTarget demoResources.renderTarget,
         Call.SetTexture demoResources.colorMap 0 shaderStages,
         Call.DrawIndexed 36 0, Call.UnsetRenderTarget,
         Call.GenerateMips demoResources.renderTargetTex,
         Call.SetTexture demoResources.renderTargetTex
           (if defaultBuild.customMultisampling then 1 else 0) shaderStages,
         Call.DrawIndexed 36 0] :=
  ⟨demoApp_holds,
   mips_regenerated_after_target_draw defaultBuild exprGs demoBase demoInput demoApp
     demoResources demoApp_holds⟩

/-- C9: `CreateBuffers` returns, and the vertices it hands to the vertex buffer are the
cube vertices with unchanged positions and with every texture coordinate `t` replaced by
`s(t) = (t - 0.5) * 1.05 + 0.5`; `s` fixes 1/2, is strictly increasing, maps [0, 1] onto
[-1/40, 41/40], and takes 0 to -1/40 and 1 to 1 + 1/40, so a coordinate that was 0 or 1
lies outside [0, 1] afterwards. -/
theorem texcoord_scaling (base : Tutorial Mat) (rs : RenderSystem) (app : App Mat) :
    (∃ app1 log, CreateBuffers base rs app = Except.ok (cubeVertexFormat, app1, log) ∧
      Call.CreateVertexBuffer
        (base.GenerateTexturedCubeVertices.map fun v =>
          ⟨v.position, ⟨specScale v.texCoord.x, specScale v.texCoord.y⟩⟩)
        cubeVertexFormat ∈ calls log) ∧
    (∀ v : VertexPosTexCoord, scaleTexCoord v =
      ⟨v.position, ⟨specScale v.texCoord.x, specScale v.texCoord.y⟩⟩) ∧
    specScale (1 / 2) = 1 / 2 ∧
    StrictMono specScale ∧
    Set.image specScale (Set.Icc 0 1) = Set.Icc (-1 / 40) (41 / 40) ∧
    specScale 0 = -1 / 40 ∧ specScale 1 = 1 + 1 / 40 ∧
    (∀ v ∈ base.GenerateTexturedCubeVertices,
      (v.texCoord.x = 0 ∨ v.texCoord.x = 1 →
        (scaleTexCoord v).texCoord.x ∉ Set.Icc (0 : ℚ) 1) ∧
      (v.texCoord.y = 0 ∨ v.texCoord.y = 1 →
        (scaleTexCoord v).texCoord.y ∉ Set.Icc (0 : ℚ) 1)) := by
  have hv : ∀ v : VertexPosTexCoord, scaleTexCoord v =
      ⟨v.position, ⟨specScale v.texCoord.x, specScale v.texCoord.y⟩⟩ := fun v => rfl
  have h0 : specScale 0 = -1 / 40 := by rw [specScale_eq]; norm_num
  have h1 : specScale 1 = 1 + 1 / 40 := by rw [specScale_eq]; norm_num
  refine ⟨⟨_, _, CreateBuffers_eq base rs app, ?_⟩, hv, ?_, ?_, ?_, h0, h1, ?_⟩
  · have hmap : base.GenerateTexturedCubeVertices.map scaleTexCoord =
        base.GenerateTexturedCubeVertices.map fun v =>
          ⟨v.position, ⟨specScale v.texCoord.x, specScale v.texCoord.y⟩⟩ :=
      List.map_congr_left fun v _ => hv v
    simp [calls, entries, createBuffersCalls, hmap]
  · rw [specScale_eq]
    norm_num
  · intro a b hab
    rw [specScale_eq]
    simp only
    linarith
  · rw [specScale_eq, Set.image_affine_Icc' (by norm_num : (0 : ℚ) < 21 / 20)]
    norm_num
  · intro v _
    constructor
    · intro hx
      rw [hv v]
      simp only [Set.mem_Icc, not_and_or, not_le]
      rcases hx with hx | hx
      · left
        rw [hx, h0]
        norm_num
      · right
        rw [hx, h1]
        norm_num
    · intro hy
      rw [hv v]
      simp only [Set.mem_Icc, not_and_or, not_le]
      rcases hy with hy | hy
      · left
        rw [hy, h0]
        norm_num
      · right
        rw [hy, h1]
        norm_num

/-- C10: in a build without custom multi-sampling, every sequence of frames returns, and
from any binding state of the context the `DrawIndexed` calls alternate between a draw
with `renderTarget` active and `colorMap` in slot 0 and a draw to the main framebuffer
with `renderTargetTex` in slot 0; so whenever `renderTarget` is active at a draw, the
texture in slot 0 is `colorMap` and, the two textures being different, not
`renderTargetTex`. -/
theorem render_target_not_sampled_while_drawn (cfg : BuildConfig) (gs : GsLib Mat Dir Rad)
    (base : Tutorial Mat) (r : Resources) (app : App Mat) (inputs : List Input)
    (c : ContextState) (hcfg : cfg.customMultisampling = false) (h : app.Holds r)
    (hne : r.colorMap ≠ r.renderTargetTex) :
    ∃ app1 log, runFrames cfg gs base inputs app = Except.ok ((), app1, log) ∧
      drawStates c (calls log) =
        (List.replicate inputs.length
          [(⟨some r.renderTarget, some r.colorMap⟩ : DrawState),
           ⟨none, some r.renderTargetTex⟩]).flatten ∧
      (∀ d ∈ drawStates c (calls log),
        (d.renderTarget = some r.renderTarget →
          d.texture0 = some r.colorMap ∧ d.texture0 ≠ some r.renderTargetTex) ∧
        (d.renderTarget ≠ some r.renderTarget →
          d.renderTarget = none ∧ d.texture0 = some r.renderTargetTex)) := by
  obtain ⟨app1, log, hrun, -, hdraw⟩ := runFrames_eq cfg gs base r inputs app h
  refine ⟨app1, log, hrun, hdraw hcfg c, ?_⟩
  intro d hd
  rw [hdraw hcfg c] at hd
  simp only [List.mem_flatten, List.mem_replicate] at hd
  obtain ⟨l, ⟨-, rfl⟩, hd⟩ := hd
  simp only [List.mem_cons, List.mem_singleton, List.not_mem_nil, or_false] at hd
  rcases hd with rfl | rfl
  · refine ⟨fun _ => ⟨rfl, ?_⟩, fun hn => absurd rfl hn⟩
    intro heq
    exact hne (Option.some.inj heq)
  · refine ⟨fun hn => ?_, fun _ => ⟨rfl, rfl⟩⟩
    cases hn

/-- Two concrete frames in a row, started with nothing bound, with the bindings as stated. -/
theorem render_target_not_sampled_while_drawn_witness :
    defaultBuild.customMultisampling = false ∧ demoApp.Holds demoResources ∧
    demoResources.colorMap ≠ demoResources.renderTargetTex ∧
    ∃ app1 log, runFrames defaultBuild exprGs demoBase [demoInput, demoInput] demoApp
        = Except.ok ((), app1, log) ∧
      drawStates ⟨none, fun _ => none⟩ (calls log) =
        (List.replicate [demoInput, demoInput].length
          [(⟨some demoResources.renderTarget, some demoResources.colorMap⟩ : DrawState),
           ⟨none, some demoResources.renderTargetTex⟩]).flatten ∧
      (∀ d ∈ drawStates ⟨none, fun _ => none⟩ (calls log),
        (d.renderTarget = some demoResources.renderTarget →
          d.texture0 = some demoResources.colorMap ∧
          d.texture0 ≠ some demoResources.renderTargetTex) ∧
        (d.renderTarget ≠ some demoResources.renderTarget →
          d.renderTarget = none ∧ d.texture0 = some demoResources.renderTargetTex)) :=
  ⟨rfl, demoApp_holds, by decide,
   render_target_not_sampled_while_drawn defaultBuild exprGs demoBase demoResources demoApp
     [demoInput, demoInput] ⟨none, fun _ => none⟩ rfl demoApp_holds (by decide)⟩

end Theorems

end Tutorial05
